import Mathlib

set_option linter.unreachableTactic false
set_option linter.unusedTactic false

/-!
Shallow embedding of the FlatBuffers-style binary table format used by the
generated `tflite`/`circle` option bindings in this repository
(`tools/circlefile_tool/tflite/*.py`, `tools/tflitefile_tool/tflite/*.py`),
together with the `js2h5` JSON-to-HDF5 conversion
(`tools/nnpackage_tool/gen_golden/js2h5.py`).

The generated bindings call into the FlatBuffers runtime
(`flatbuffers.table.Table`, `flatbuffers.Builder`, `flatbuffers.encode.Get`),
which is not part of this repository's sources; those runtime pieces are
modelled from the specification of the format (reader: lazy table views,
vtable lookup with the stored-offset-0-means-default rule; builder:
back-to-front byte placement, alignment, vtable emission with trailing-default
trimming and byte-for-byte deduplication).  The binding-level classes and
module functions are transliterated directly from the repository sources.

Buffers are `List Nat`, head of the buffer first; every read normalizes the
addressed entry modulo 256, and a read out of range yields byte 0 (the Python
runtime raises there; no claim exercises that path except where modelled with
`Option`).
-/

namespace FB

/-- A byte of a buffer: entry `i`, reduced mod 256; 0 when out of range. -/
def byteAt (buf : List Nat) (i : Nat) : Nat :=
  (buf.getD i 0) % 256

/-- Little-endian read of `w` bytes starting at `pos`. -/
def readLE (buf : List Nat) (pos : Nat) : Nat → Nat
  | 0 => 0
  | w + 1 => byteAt buf pos + 256 * readLE buf (pos + 1) w

/-- Reinterpret an unsigned `bits`-wide value as two's-complement signed. -/
def toSigned (bits : Nat) (n : Nat) : Int :=
  if n < 2 ^ (bits - 1) then (n : Int) else (n : Int) - 2 ^ bits

/-- Little-endian bytes (fixed width 2) of a natural number. -/
def leBytes2 (n : Nat) : List Nat :=
  [n % 256, n / 256 % 256]

/-- Little-endian bytes (fixed width 4) of a natural number. -/
def leBytes4 (n : Nat) : List Nat :=
  [n % 256, n / 256 % 256, n / 65536 % 256, n / 16777216 % 256]

/-- Little-endian bytes of an integer, two's complement, width `w` bytes. -/
def leBytesInt (v : Int) (w : Nat) : List Nat :=
  if w = 1 then [(v % 256).toNat]
  else if w = 2 then leBytes2 (v % 65536).toNat
  else leBytes4 (v % 4294967296).toNat

/-- Modelled from the spec: `flatbuffers.encode.Get` for the 4-byte unsigned
root offset ("uoffset"); reading raises (here: `none`) when the four bytes do
not fit in the buffer, and otherwise returns the little-endian value. -/
def encodeGetUOffset (buf : List Nat) (offset : Nat) : Option Nat :=
  if offset + 4 ≤ buf.length then some (readLE buf offset 4) else none

/-- Modelled from the spec: the reader's lightweight table view, carrying the
buffer and the absolute table position (`flatbuffers.table.Table`). -/
structure Table where
  bytes : List Nat
  pos : Nat
  deriving Repr, DecidableEq

/-- Signed 4-byte read ("soffset": table to its vtable). -/
def readSOffset (buf : List Nat) (pos : Nat) : Int :=
  toSigned 32 (readLE buf pos 4)

/-- Unsigned 2-byte read at a possibly negative position ("voffset");
a negative position yields 0 (unreachable on builder-produced buffers). -/
def readVOffsetI (buf : List Nat) (i : Int) : Nat :=
  if i < 0 then 0 else readLE buf i.toNat 2

/-- Modelled from the spec: `Table.Offset(vtableOffset)` — compute the vtable
position as `pos - soffset(pos)`, and return the stored 2-byte field offset
when `vtableOffset` is inside the vtable, else 0 (field absent: the reader
must return the declared default, which also covers buffers written by a
schema with fewer fields). -/
def Table.Offset (t : Table) (vtableOffset : Nat) : Nat :=
  let vtable : Int := (t.pos : Int) - readSOffset t.bytes t.pos
  let vtableEnd := readVOffsetI t.bytes vtable
  if vtableOffset < vtableEnd then readVOffsetI t.bytes (vtable + vtableOffset) else 0

/-- Modelled from the spec: `Table.Get(Int8Flags, off)` — one signed byte. -/
def Table.GetInt8 (t : Table) (off : Nat) : Int :=
  toSigned 8 (readLE t.bytes off 1)

/-- Modelled from the spec: `Table.Get(Int32Flags, off)` — four little-endian
bytes, signed. -/
def Table.GetInt32 (t : Table) (off : Nat) : Int :=
  toSigned 32 (readLE t.bytes off 4)

/-- Modelled from the spec: `Table.Get(BoolFlags, off)` wrapped in `bool()` —
one byte, false iff the byte is 0, true for every nonzero byte. -/
def Table.GetBool (t : Table) (off : Nat) : Bool :=
  byteAt t.bytes off ≠ 0

/-- Overwrite the bytes of `l` starting at index `i` with `bs`
(used to patch the table's soffset field once its vtable position is known). -/
def setBytes : List Nat → Nat → List Nat → List Nat
  | [], _, _ => []
  | x :: xs, 0, bs =>
      match bs with
      | [] => x :: xs
      | b :: rest => b :: setBytes xs 0 rest
  | x :: xs, i + 1, bs => x :: setBytes xs i bs

/-- Modelled from the spec: the builder.  Bytes are accumulated back-to-front;
`data` lists the bytes written so far with the (current) head of the buffer
first, so the number of bytes written — Python's `self.Offset()` — is
`data.length`, and an "offset" is always measured from the end of the buffer.
`currentVtable` maps each slot to the offset of its field data (0 = absent),
`objectEnd` is the offset at which the open table began, `vtables` lists the
offsets of already-emitted vtables for deduplication, and `minalign` is the
largest alignment seen.  The runtime's fatal misuse errors (nested builder
violations, unbounded slot) are not modelled; no claim exercises them. -/
structure Builder where
  data : List Nat
  size : Nat
  minalign : Nat
  currentVtable : List Nat
  objectEnd : Nat
  vtables : List Nat
  deriving Repr, DecidableEq

/-- A fresh builder (Python `flatbuffers.Builder(initialSize)`). -/
def Builder.new : Builder :=
  ⟨[], 0, 1, [], 0, []⟩

/-- Bytes written so far (Python `Builder.Offset()`, maintained incrementally
through the writer's head cursor; always equal to `data.length`). -/
def Builder.offset (b : Builder) : Nat :=
  b.size

/-- Place raw bytes at the head (the buffer grows downward). -/
def Builder.place (b : Builder) (bs : List Nat) : Builder :=
  { b with data := bs ++ b.data, size := b.size + bs.length }

/-- Emit `n` zero bytes (Python `Pad`). -/
def Builder.pad (b : Builder) (n : Nat) : Builder :=
  b.place (List.replicate n 0)

/-- Modelled from the spec: `Prep(size, additionalBytes)` — record the
alignment and pad so that, after `additionalBytes` more bytes, the value about
to be placed is aligned to `size` (a power of two). -/
def Builder.prep (b : Builder) (size additionalBytes : Nat) : Builder :=
  let b := { b with minalign := max b.minalign size }
  let alignSize := (size - (b.offset + additionalBytes) % size) % size
  b.pad alignSize

/-- Prepend a 2-byte unsigned value (Python `PrependVOffsetT`). -/
def Builder.prependVOffset (b : Builder) (v : Nat) : Builder :=
  (b.prep 2 0).place (leBytes2 v)

/-- Modelled from the spec: `PrependSOffsetTRelative(off)` — place the 4-byte
distance from the location being written to the target at offset `off`. -/
def Builder.prependSOffsetRelative (b : Builder) (off : Nat) : Builder :=
  let b := b.prep 4 0
  b.place (leBytes4 (b.offset - off + 4))

/-- Modelled from the spec: `PrependUOffsetTRelative(off)` — place the 4-byte
forward distance from the location being written to the target at `off`. -/
def Builder.prependUOffsetRelative (b : Builder) (off : Nat) : Builder :=
  let b := b.prep 4 0
  b.place (leBytes4 (b.offset - off + 4))

/-- Modelled from the spec: `StartObject(numfields)` — begin tracking slot
offsets for a new table. -/
def Builder.startObject (b : Builder) (numfields : Nat) : Builder :=
  { b with currentVtable := List.replicate numfields 0, objectEnd := b.offset }

/-- Modelled from the spec: `Slot(slotnum)` — record that the field for slot
`slotnum` sits at the current offset. -/
def Builder.slot (b : Builder) (slotnum : Nat) : Builder :=
  { b with currentVtable := b.currentVtable.set slotnum b.offset }

/-- Modelled from the spec: `PrependInt8Slot(slot, x, default)` — write the
byte and record the slot only when `x` differs from the declared default. -/
def Builder.prependInt8Slot (b : Builder) (slotnum : Nat) (x d : Int) : Builder :=
  if x ≠ d then (((b.prep 1 0).place (leBytesInt x 1)).slot slotnum) else b

/-- Modelled from the spec: `PrependInt32Slot(slot, x, default)`. -/
def Builder.prependInt32Slot (b : Builder) (slotnum : Nat) (x d : Int) : Builder :=
  if x ≠ d then (((b.prep 4 0).place (leBytesInt x 4)).slot slotnum) else b

/-- Modelled from the spec: `PrependBoolSlot(slot, x, default)` — the writer
emits exactly the byte 1 for true and 0 for false, and skips the field when
the boolean equals the (numeric) declared default. -/
def Builder.prependBoolSlot (b : Builder) (slotnum : Nat) (x : Bool) (d : Int) : Builder :=
  if (if x then (1 : Int) else 0) ≠ d then
    (((b.prep 1 0).place [if x then 1 else 0]).slot slotnum)
  else b

/-- Drop the trailing zero (absent / default-valued) slots of a vtable
before emission. -/
def trimTrailingZeros (l : List Nat) : List Nat :=
  ((l.reverse).dropWhile (fun x => x = 0)).reverse

/-- Modelled from the spec: `vtableEqual(a, objectStart, b)` — compare the
in-progress vtable (slot offsets, 0 = absent) against the field-offset bytes
of an already-written vtable. -/
def vtableEqual (a : List Nat) (objectStart : Nat) (b : List Nat) : Bool :=
  if a.length * 2 ≠ b.length then false
  else (List.range a.length).all fun i =>
    let x := byteAt b (2 * i) + 256 * byteAt b (2 * i + 1)
    let elem := a.getD i 0
    (x = 0 && elem = 0) || x = objectStart - elem

/-- Modelled from the spec: the search `EndObject` performs over previously
emitted vtables for a byte-for-byte equal one to reuse. -/
def Builder.findVtable (b : Builder) (trimmed : List Nat) (objectOffset : Nat) : Option Nat :=
  b.vtables.find? fun vt2Offset =>
    let vt2Start := b.size - vt2Offset
    let vt2Len := readLE b.data vt2Start 2
    let vt2 := (b.data.drop (vt2Start + 4)).take (vt2Len - 4)
    vtableEqual trimmed objectOffset vt2

/-- Modelled from the spec: `WriteVtable` (the body of `EndObject`) — place a
soffset placeholder, trim trailing default slots, and search previously
emitted vtables for a byte-for-byte equal one (`existingVtable is None` in
the Python writer).  On a miss, emit `[vtable-size-in-bytes]
[table-size-in-bytes][per-slot table-relative offset]*` and register the new
vtable; on a hit reuse the existing one; in both cases patch the table's
soffset field to point at the vtable.  Returns the new builder and the
offset of the finished table. -/
def Builder.writeVtable (b : Builder) : Builder × Nat :=
  let b := b.prependSOffsetRelative 0
  let objectOffset := b.offset
  let trimmed := trimTrailingZeros b.currentVtable
  let existingVtable := b.findVtable trimmed objectOffset
  if existingVtable = none then
    let b2 := trimmed.reverse.foldl
      (fun bb off => bb.prependVOffset (if off = 0 then 0 else objectOffset - off)) b
    let b2 := b2.prependVOffset (objectOffset - b2.objectEnd)
    let b2 := b2.prependVOffset ((trimmed.length + 2) * 2)
    let objectStart := b2.size - objectOffset
    let patched := setBytes b2.data objectStart (leBytes4 (b2.offset - objectOffset))
    ({ b2 with data := patched, currentVtable := [], vtables := b2.vtables ++ [b2.offset] },
     objectOffset)
  else
    let objectStart := b.size - objectOffset
    let sval : Int := ((existingVtable.getD 0 : Nat) : Int) - (objectOffset : Int)
    let patched := setBytes b.data objectStart (leBytesInt sval 4)
    ({ b with data := patched, currentVtable := [] }, objectOffset)

/-- Modelled from the spec: `EndObject()`. -/
def Builder.endObject (b : Builder) : Builder × Nat :=
  b.writeVtable

/-- Modelled from the spec: `Finish(rootTable)` — align, then place the root
uoffset at the head; `data` is then the finished buffer. -/
def Builder.finish (b : Builder) (rootTable : Nat) : Builder :=
  (b.prep b.minalign 4).prependUOffsetRelative rootTable

end FB

/-!
Transliterations of the generated binding classes and module functions, one
per repository source file.
-/

namespace tflite

/-- `circlefile_tool/tflite/MulOptions.py`: the table view class. -/
structure MulOptions where
  _tab : FB.Table
  deriving Repr, DecidableEq

/-- `MulOptions.GetRootAsMulOptions(buf, offset)`: read the root uoffset `n`
at `offset` and initialize a view at position `n + offset`. -/
def MulOptions.GetRootAsMulOptions (buf : List Nat) (offset : Nat) : Option MulOptions :=
  (FB.encodeGetUOffset buf offset).map fun n => { _tab := ⟨buf, n + offset⟩ }

/-- `MulOptions.FusedActivationFunction(self)`. -/
def MulOptions.FusedActivationFunction (x : MulOptions) : Int :=
  let o := x._tab.Offset 4
  if o ≠ 0 then x._tab.GetInt8 (o + x._tab.pos) else 0

/-- `MulOptionsStart(builder)`. -/
def MulOptionsStart (builder : FB.Builder) : FB.Builder :=
  builder.startObject 1

/-- `MulOptionsAddFusedActivationFunction(builder, fusedActivationFunction)`. -/
def MulOptionsAddFusedActivationFunction (builder : FB.Builder)
    (fusedActivationFunction : Int) : FB.Builder :=
  builder.prependInt8Slot 0 fusedActivationFunction 0

/-- `MulOptionsEnd(builder)`. -/
def MulOptionsEnd (builder : FB.Builder) : FB.Builder × Nat :=
  builder.endObject

/-- `circlefile_tool/tflite/SubOptions.py`: the table view class. -/
structure SubOptions where
  _tab : FB.Table
  deriving Repr, DecidableEq

/-- `SubOptions.GetRootAsSubOptions(buf, offset)`. -/
def SubOptions.GetRootAsSubOptions (buf : List Nat) (offset : Nat) : Option SubOptions :=
  (FB.encodeGetUOffset buf offset).map fun n => { _tab := ⟨buf, n + offset⟩ }

/-- `SubOptions.FusedActivationFunction(self)`. -/
def SubOptions.FusedActivationFunction (x : SubOptions) : Int :=
  let o := x._tab.Offset 4
  if o ≠ 0 then x._tab.GetInt8 (o + x._tab.pos) else 0

/-- `SubOptionsStart(builder)`. -/
def SubOptionsStart (builder : FB.Builder) : FB.Builder :=
  builder.startObject 1

/-- `SubOptionsAddFusedActivationFunction(builder, fusedActivationFunction)`. -/
def SubOptionsAddFusedActivationFunction (builder : FB.Builder)
    (fusedActivationFunction : Int) : FB.Builder :=
  builder.prependInt8Slot 0 fusedActivationFunction 0

/-- `SubOptionsEnd(builder)`. -/
def SubOptionsEnd (builder : FB.Builder) : FB.Builder × Nat :=
  builder.endObject

/-- `circlefile_tool/tflite/BCQGatherOptions.py`: the table view class. -/
structure BCQGatherOptions where
  _tab : FB.Table
  deriving Repr, DecidableEq

/-- `BCQGatherOptions.GetRootAsBCQGatherOptions(buf, offset)`. -/
def BCQGatherOptions.GetRootAsBCQGatherOptions (buf : List Nat) (offset : Nat) :
    Option BCQGatherOptions :=
  (FB.encodeGetUOffset buf offset).map fun n => { _tab := ⟨buf, n + offset⟩ }

/-- `BCQGatherOptions.InputHiddenSize(self)`: slot 0, vtable byte offset 4,
int32, default 0. -/
def BCQGatherOptions.InputHiddenSize (x : BCQGatherOptions) : Int :=
  let o := x._tab.Offset 4
  if o ≠ 0 then x._tab.GetInt32 (o + x._tab.pos) else 0

/-- `BCQGatherOptions.Axis(self)`: slot 1, vtable byte offset 6, int32,
default 0. -/
def BCQGatherOptions.Axis (x : BCQGatherOptions) : Int :=
  let o := x._tab.Offset 6
  if o ≠ 0 then x._tab.GetInt32 (o + x._tab.pos) else 0

/-- `BCQGatherOptionsStart(builder)`. -/
def BCQGatherOptionsStart (builder : FB.Builder) : FB.Builder :=
  builder.startObject 2

/-- `BCQGatherOptionsAddInputHiddenSize(builder, inputHiddenSize)`. -/
def BCQGatherOptionsAddInputHiddenSize (builder : FB.Builder)
    (inputHiddenSize : Int) : FB.Builder :=
  builder.prependInt32Slot 0 inputHiddenSize 0

/-- `BCQGatherOptionsAddAxis(builder, axis)`. -/
def BCQGatherOptionsAddAxis (builder : FB.Builder) (axis : Int) : FB.Builder :=
  builder.prependInt32Slot 1 axis 0

/-- `BCQGatherOptionsEnd(builder)`. -/
def BCQGatherOptionsEnd (builder : FB.Builder) : FB.Builder × Nat :=
  builder.endObject

/-- `circlefile_tool/tflite/FullyConnectedOptions.py`: the table view class. -/
structure FullyConnectedOptions where
  _tab : FB.Table
  deriving Repr, DecidableEq

/-- `FullyConnectedOptions.GetRootAsFullyConnectedOptions(buf, offset)`. -/
def FullyConnectedOptions.GetRootAsFullyConnectedOptions (buf : List Nat) (offset : Nat) :
    Option FullyConnectedOptions :=
  (FB.encodeGetUOffset buf offset).map fun n => { _tab := ⟨buf, n + offset⟩ }

/-- `FullyConnectedOptions.FusedActivationFunction(self)`: slot 0, vtable
byte offset 4, int8, default 0. -/
def FullyConnectedOptions.FusedActivationFunction (x : FullyConnectedOptions) : Int :=
  let o := x._tab.Offset 4
  if o ≠ 0 then x._tab.GetInt8 (o + x._tab.pos) else 0

/-- `FullyConnectedOptions.WeightsFormat(self)`: slot 1, vtable byte offset
6, int8, default 0. -/
def FullyConnectedOptions.WeightsFormat (x : FullyConnectedOptions) : Int :=
  let o := x._tab.Offset 6
  if o ≠ 0 then x._tab.GetInt8 (o + x._tab.pos) else 0

/-- `FullyConnectedOptions.KeepNumDims(self)`: slot 2, vtable byte offset 8,
bool, default False. -/
def FullyConnectedOptions.KeepNumDims (x : FullyConnectedOptions) : Bool :=
  let o := x._tab.Offset 8
  if o ≠ 0 then x._tab.GetBool (o + x._tab.pos) else false

/-- `FullyConnectedOptions.AsymmetricQuantizeInputs(self)`: slot 3, vtable
byte offset 10, bool, default False. -/
def FullyConnectedOptions.AsymmetricQuantizeInputs (x : FullyConnectedOptions) : Bool :=
  let o := x._tab.Offset 10
  if o ≠ 0 then x._tab.GetBool (o + x._tab.pos) else false

/-- `FullyConnectedOptionsStart(builder)`. -/
def FullyConnectedOptionsStart (builder : FB.Builder) : FB.Builder :=
  builder.startObject 4

/-- `FullyConnectedOptionsAddFusedActivationFunction(builder, v)`. -/
def FullyConnectedOptionsAddFusedActivationFunction (builder : FB.Builder)
    (fusedActivationFunction : Int) : FB.Builder :=
  builder.prependInt8Slot 0 fusedActivationFunction 0

/-- `FullyConnectedOptionsAddWeightsFormat(builder, v)`. -/
def FullyConnectedOptionsAddWeightsFormat (builder : FB.Builder)
    (weightsFormat : Int) : FB.Builder :=
  builder.prependInt8Slot 1 weightsFormat 0

/-- `FullyConnectedOptionsAddKeepNumDims(builder, v)`. -/
def FullyConnectedOptionsAddKeepNumDims (builder : FB.Builder)
    (keepNumDims : Bool) : FB.Builder :=
  builder.prependBoolSlot 2 keepNumDims 0

/-- `FullyConnectedOptionsAddAsymmetricQuantizeInputs(builder, v)`. -/
def FullyConnectedOptionsAddAsymmetricQuantizeInputs (builder : FB.Builder)
    (asymmetricQuantizeInputs : Bool) : FB.Builder :=
  builder.prependBoolSlot 3 asymmetricQuantizeInputs 0

/-- `FullyConnectedOptionsEnd(builder)`. -/
def FullyConnectedOptionsEnd (builder : FB.Builder) : FB.Builder × Nat :=
  builder.endObject

/-- `tflitefile_tool/tflite/ResizeBilinearOptions.py`: the table view class. -/
structure ResizeBilinearOptions where
  _tab : FB.Table
  deriving Repr, DecidableEq

/-- `ResizeBilinearOptions.GetRootAsResizeBilinearOptions(buf, offset)`. -/
def ResizeBilinearOptions.GetRootAsResizeBilinearOptions (buf : List Nat) (offset : Nat) :
    Option ResizeBilinearOptions :=
  (FB.encodeGetUOffset buf offset).map fun n => { _tab := ⟨buf, n + offset⟩ }

/-- `ResizeBilinearOptions.AlignCorners(self)`: slot 2, vtable byte offset 8,
bool, default False. -/
def ResizeBilinearOptions.AlignCorners (x : ResizeBilinearOptions) : Bool :=
  let o := x._tab.Offset 8
  if o ≠ 0 then x._tab.GetBool (o + x._tab.pos) else false

/-- `ResizeBilinearOptionsStart(builder)`. -/
def ResizeBilinearOptionsStart (builder : FB.Builder) : FB.Builder :=
  builder.startObject 3

/-- `ResizeBilinearOptionsAddAlignCorners(builder, alignCorners)`. -/
def ResizeBilinearOptionsAddAlignCorners (builder : FB.Builder)
    (alignCorners : Bool) : FB.Builder :=
  builder.prependBoolSlot 2 alignCorners 0

/-- `ResizeBilinearOptionsEnd(builder)`. -/
def ResizeBilinearOptionsEnd (builder : FB.Builder) : FB.Builder × Nat :=
  builder.endObject

/-!
Encode pipelines: the Start / Add... / End / Finish call sequences the claims
quantify over.  A `some v` argument means the corresponding `...Add...`
module function was called with value `v`; `none` means it was not called.
-/

/-- Build a finished buffer through the `MulOptions` builder functions. -/
def encodeMulOptions (fusedActivationFunction : Option Int) : List Nat :=
  let builder := FB.Builder.new
  let builder := MulOptionsStart builder
  let builder := match fusedActivationFunction with
    | some v => MulOptionsAddFusedActivationFunction builder v
    | none => builder
  let r := MulOptionsEnd builder
  (r.1.finish r.2).data

/-- Build a finished buffer through the `SubOptions` builder functions. -/
def encodeSubOptions (fusedActivationFunction : Option Int) : List Nat :=
  let builder := FB.Builder.new
  let builder := SubOptionsStart builder
  let builder := match fusedActivationFunction with
    | some v => SubOptionsAddFusedActivationFunction builder v
    | none => builder
  let r := SubOptionsEnd builder
  (r.1.finish r.2).data

/-- Build a finished buffer through the `BCQGatherOptions` builder functions. -/
def encodeBCQGatherOptions (inputHiddenSize axis : Option Int) : List Nat :=
  let builder := FB.Builder.new
  let builder := BCQGatherOptionsStart builder
  let builder := match inputHiddenSize with
    | some v => BCQGatherOptionsAddInputHiddenSize builder v
    | none => builder
  let builder := match axis with
    | some v => BCQGatherOptionsAddAxis builder v
    | none => builder
  let r := BCQGatherOptionsEnd builder
  (r.1.finish r.2).data

/-- Build a finished buffer through the `FullyConnectedOptions` builder
functions. -/
def encodeFullyConnectedOptions (fusedActivationFunction weightsFormat : Option Int)
    (keepNumDims asymmetricQuantizeInputs : Option Bool) : List Nat :=
  let builder := FB.Builder.new
  let builder := FullyConnectedOptionsStart builder
  let builder := match fusedActivationFunction with
    | some v => FullyConnectedOptionsAddFusedActivationFunction builder v
    | none => builder
  let builder := match weightsFormat with
    | some v => FullyConnectedOptionsAddWeightsFormat builder v
    | none => builder
  let builder := match keepNumDims with
    | some v => FullyConnectedOptionsAddKeepNumDims builder v
    | none => builder
  let builder := match asymmetricQuantizeInputs with
    | some v => FullyConnectedOptionsAddAsymmetricQuantizeInputs builder v
    | none => builder
  let r := FullyConnectedOptionsEnd builder
  (r.1.finish r.2).data

/-- Build a finished buffer through the `ResizeBilinearOptions` builder
functions. -/
def encodeResizeBilinearOptions (alignCorners : Option Bool) : List Nat :=
  let builder := FB.Builder.new
  let builder := ResizeBilinearOptionsStart builder
  let builder := match alignCorners with
    | some v => ResizeBilinearOptionsAddAlignCorners builder v
    | none => builder
  let r := ResizeBilinearOptionsEnd builder
  (r.1.finish r.2).data

end tflite

/-!
Model of `tools/nnpackage_tool/gen_golden/js2h5.py`: the loop over the parsed
JSON object that creates HDF5 datasets under group "value" and matching
attributes under group "name".  File input/output and the `print` calls are
outside the model; a JSON object is a list of key/value pairs in iteration
order, and the produced HDF5 file is the list of datasets (name, dtype,
stored data) plus the list of attributes (name, original JSON key).
-/

namespace js2h5model

/-- Values of the parsed JSON tree; numeric leaves are kept opaque up to an
integer code since the conversion only routes them. -/
inductive JsVal where
  | str : String → JsVal
  | num : Int → JsVal
  | arr : List JsVal → JsVal

/-- Number of array dimensions numpy infers for a (rectangular) nested list:
0 for a leaf, one more than the first element's for a nonempty list. -/
def JsVal.ndim : JsVal → Nat
  | .arr [] => 1
  | .arr (x :: _) => 1 + x.ndim
  | _ => 0

/-- Effect of `np.array(d, ndmin=2)`: prepend axes until at least 2
dimensions. -/
def ndmin2 (v : JsVal) : JsVal :=
  if 2 ≤ v.ndim then v else if v.ndim = 1 then .arr [v] else .arr [.arr [v]]

/-- The `h5dtypes` dictionary of the script. -/
def h5dtypes : List (String × String) :=
  [("float32", ">f4"), ("uint8", "u1"), ("bool", "u1"), ("int32", "int32"),
   ("int64", "int64")]

/-- Dictionary lookup `h5dtypes[k]` (every key used by the script is
present). -/
def h5dtype (k : String) : String :=
  ((h5dtypes.find? (fun p => p.1 = k)).map Prod.snd).getD ""

/-- The HDF5 file as observed through the two groups the script populates:
datasets `(name, dtype, data)` under group "value" and attributes
`(name, original JSON key)` under group "name", each in creation order. -/
structure H5File where
  value : List (String × String × JsVal)
  name : List (String × String)

/-- One iteration of the script's `for idx, t in enumerate(data)` loop, with
the `if`/`elif` chain in source order (`gazet_vecs`, `last_label_id`,
`word_ids`, `reference_capsule_probs`; any other key does nothing). -/
def js2h5Step (hf : H5File) (kv : String × JsVal) : H5File :=
  let t := kv.1
  if t = "gazet_vecs" then
    { hf with value := hf.value ++ [("2", h5dtype "float32", kv.2)],
              name := hf.name ++ [("2", t)] }
  else if t = "last_label_id" then
    { hf with value := hf.value ++ [("1", h5dtype "int32", kv.2)],
              name := hf.name ++ [("1", t)] }
  else if t = "word_ids" then
    { hf with value := hf.value ++ [("0", h5dtype "int32", kv.2)],
              name := hf.name ++ [("0", t)] }
  else if t = "reference_capsule_probs" then
    { hf with value := hf.value ++ [("expected", h5dtype "float32", ndmin2 kv.2)],
              name := hf.name ++ [("expected", t)] }
  else hf

/-- The whole conversion loop over the JSON object. -/
def js2h5 (data : List (String × JsVal)) : H5File :=
  data.foldl js2h5Step ⟨[], []⟩

/-- The dataset the claim says a key produces: `word_ids` to dataset "0" as
int32, `last_label_id` to dataset "1" as int32, `gazet_vecs` to dataset "2"
as big-endian float32 (">f4"), `reference_capsule_probs` to dataset
"expected" as float32 with at least 2 dimensions, and nothing for every
other key.  Written from the claim's words, to be compared with the
transliterated `js2h5`. -/
def claimDataset (kv : String × JsVal) : Option (String × String × JsVal) :=
  if kv.1 = "word_ids" then some ("0", "int32", kv.2)
  else if kv.1 = "last_label_id" then some ("1", "int32", kv.2)
  else if kv.1 = "gazet_vecs" then some ("2", ">f4", kv.2)
  else if kv.1 = "reference_capsule_probs" then some ("expected", ">f4", ndmin2 kv.2)
  else none

/-- The matching attribute under group "name" the claim says a key produces.
Written from the claim's words. -/
def claimAttr (kv : String × JsVal) : Option (String × String) :=
  if kv.1 = "word_ids" then some ("0", kv.1)
  else if kv.1 = "last_label_id" then some ("1", kv.1)
  else if kv.1 = "gazet_vecs" then some ("2", kv.1)
  else if kv.1 = "reference_capsule_probs" then some ("expected", kv.1)
  else none

end js2h5model

/-!
Decidable side conditions for the round-trip statements: a field value the
builder was asked to add is admissible for the claim when it is in the range
the Python runtime's `enforce_number` accepts for its width and differs from
the schema default (the claims quantify only over fields added with
non-default values; `none` means the `...Add...` function was not called).
-/

/-- Admissible added int8 field value: in range and non-default. -/
def addedInt8OK : Option Int → Bool
  | none => true
  | some v => decide (-128 ≤ v) && decide (v < 128) && decide (v ≠ 0)

/-- Admissible added int32 field value: in range and non-default. -/
def addedInt32OK : Option Int → Bool
  | none => true
  | some v => decide (-2147483648 ≤ v) && decide (v < 2147483648) && decide (v ≠ 0)

/-- Admissible added bool field value: non-default, i.e. `true`. -/
def addedBoolOK : Option Bool → Bool
  | none => true
  | some b => b

/-!
Proof infrastructure: characterizations of each builder operation on an
explicit builder record, so that simplification proceeds bottom-up with all
position arithmetic on literals, plus the two's-complement round-trip facts
for the byte widths the bindings use.
-/

namespace FB

/-- The fresh builder as an explicit record. -/
theorem new_mk : Builder.new = Builder.mk [] 0 1 [] 0 [] := rfl

/-- `offset` of an explicit builder record. -/
theorem offset_mk (d : List Nat) (s m oe : Nat) (cv vt : List Nat) :
    (Builder.mk d s m cv oe vt).offset = s := rfl

/-- `place` on an explicit builder record. -/
theorem place_mk (d : List Nat) (s m oe : Nat) (cv vt : List Nat) (bs : List Nat) :
    (Builder.mk d s m cv oe vt).place bs = Builder.mk (bs ++ d) (s + bs.length) m cv oe vt := rfl

/-- `pad` on an explicit builder record. -/
theorem pad_mk (d : List Nat) (s m oe : Nat) (cv vt : List Nat) (n : Nat) :
    (Builder.mk d s m cv oe vt).pad n =
      Builder.mk (List.replicate n 0 ++ d) (s + (List.replicate n 0).length) m cv oe vt := rfl

/-- `prep` on an explicit builder record. -/
theorem prep_mk (d : List Nat) (s m oe : Nat) (cv vt : List Nat) (sz add : Nat) :
    (Builder.mk d s m cv oe vt).prep sz add =
      (Builder.mk d s (max m sz) cv oe vt).pad ((sz - (s + add) % sz) % sz) := rfl

/-- `startObject` on an explicit builder record. -/
theorem startObject_mk (d : List Nat) (s m oe : Nat) (cv vt : List Nat) (n : Nat) :
    (Builder.mk d s m cv oe vt).startObject n =
      Builder.mk d s m (List.replicate n 0) s vt := rfl

/-- `slot` on an explicit builder record. -/
theorem slot_mk (d : List Nat) (s m oe : Nat) (cv vt : List Nat) (i : Nat) :
    (Builder.mk d s m cv oe vt).slot i = Builder.mk d s m (cv.set i s) oe vt := rfl

/-- `prependVOffset` on an explicit builder record. -/
theorem prependVOffset_mk (d : List Nat) (s m oe : Nat) (cv vt : List Nat) (v : Nat) :
    (Builder.mk d s m cv oe vt).prependVOffset v =
      ((Builder.mk d s m cv oe vt).prep 2 0).place (leBytes2 v) := rfl

/-- `prependSOffsetRelative` on an explicit builder record. -/
theorem prependSOffsetRelative_mk (d : List Nat) (s m oe : Nat) (cv vt : List Nat) (off : Nat) :
    (Builder.mk d s m cv oe vt).prependSOffsetRelative off =
      ((Builder.mk d s m cv oe vt).prep 4 0).place
        (leBytes4 (((Builder.mk d s m cv oe vt).prep 4 0).offset - off + 4)) := rfl

/-- `prependUOffsetRelative` on an explicit builder record. -/
theorem prependUOffsetRelative_mk (d : List Nat) (s m oe : Nat) (cv vt : List Nat) (off : Nat) :
    (Builder.mk d s m cv oe vt).prependUOffsetRelative off =
      ((Builder.mk d s m cv oe vt).prep 4 0).place
        (leBytes4 (((Builder.mk d s m cv oe vt).prep 4 0).offset - off + 4)) := rfl

/-- `finish` on an explicit builder record. -/
theorem finish_mk (d : List Nat) (s m oe : Nat) (cv vt : List Nat) (root : Nat) :
    (Builder.mk d s m cv oe vt).finish root =
      ((Builder.mk d s m cv oe vt).prep m 4).prependUOffsetRelative root := rfl

/-- `findVtable` on an explicit builder record. -/
theorem findVtable_mk (d : List Nat) (s m oe : Nat) (cv vt : List Nat) (tr : List Nat) (oo : Nat) :
    (Builder.mk d s m cv oe vt).findVtable tr oo =
      vt.find? (fun vt2Offset =>
        let vt2Start := s - vt2Offset
        let vt2Len := readLE d vt2Start 2
        let vt2 := (d.drop (vt2Start + 4)).take (vt2Len - 4)
        vtableEqual tr oo vt2) := rfl

end FB

/-- Storing an int8 value and reading the byte back as two's complement is
the identity on the int8 range. -/
theorem toSigned8_rt (v : Int) (h1 : -128 ≤ v) (h2 : v < 128) :
    (if (v % 256).toNat % 256 < 128 then (((v % 256).toNat % 256 : Nat) : Int)
     else (((v % 256).toNat % 256 : Nat) : Int) - 256) = v := by
  split <;> omega

/-- Storing an int32 value as four little-endian bytes and reading them back
as two's complement is the identity on the int32 range. -/
theorem toSigned32_rt (v : Int) (h1 : -2147483648 ≤ v) (h2 : v < 2147483648) :
    (if (v % 4294967296).toNat % 256 % 256 + 256 *
          ((v % 4294967296).toNat / 256 % 256 % 256 + 256 *
            ((v % 4294967296).toNat / 65536 % 256 % 256 + 256 *
              ((v % 4294967296).toNat / 16777216 % 256 % 256))) < 2147483648 then
       (((v % 4294967296).toNat % 256 % 256 + 256 *
          ((v % 4294967296).toNat / 256 % 256 % 256 + 256 *
            ((v % 4294967296).toNat / 65536 % 256 % 256 + 256 *
              ((v % 4294967296).toNat / 16777216 % 256 % 256))) : Nat) : Int)
     else (((v % 4294967296).toNat % 256 % 256 + 256 *
          ((v % 4294967296).toNat / 256 % 256 % 256 + 256 *
            ((v % 4294967296).toNat / 65536 % 256 % 256 + 256 *
              ((v % 4294967296).toNat / 16777216 % 256 % 256))) : Nat) : Int) - 4294967296) = v := by
  split <;> omega

/-- Unpack the admissibility of an added int8 value. -/
theorem addedInt8OK_elim {v : Int} (h : addedInt8OK (some v) = true) :
    -128 ≤ v ∧ v < 128 ∧ v ≠ 0 := by
  simpa [addedInt8OK, and_assoc] using h

/-- Unpack the admissibility of an added int32 value. -/
theorem addedInt32OK_elim {v : Int} (h : addedInt32OK (some v) = true) :
    -2147483648 ≤ v ∧ v < 2147483648 ∧ v ≠ 0 := by
  simpa [addedInt32OK, and_assoc] using h

/-- Unpack the admissibility of an added bool value. -/
theorem addedBoolOK_elim {b : Bool} (h : addedBoolOK (some b) = true) : b = true := h

/-- Round-trip helper for `BCQGatherOptions`, presence pattern nn. -/
theorem bcqRT_nn :
    (tflite.BCQGatherOptions.GetRootAsBCQGatherOptions
        (tflite.encodeBCQGatherOptions none none) 0).map
      (fun t => (t.InputHiddenSize, t.Axis)) = some (0, 0) := by
  decide

/-- Round-trip helper for `BCQGatherOptions`, presence pattern ns. -/
theorem bcqRT_ns
    (a : Int) (ha1 : -2147483648 ≤ a) (ha2 : a < 2147483648) (ha3 : a ≠ 0) :
    (tflite.BCQGatherOptions.GetRootAsBCQGatherOptions
        (tflite.encodeBCQGatherOptions none (some a)) 0).map
      (fun t => (t.InputHiddenSize, t.Axis)) = some (0, a) := by
  simp only [tflite.encodeBCQGatherOptions, tflite.BCQGatherOptionsStart,
    tflite.BCQGatherOptionsAddInputHiddenSize, tflite.BCQGatherOptionsAddAxis,
    tflite.BCQGatherOptionsEnd, FB.Builder.endObject, FB.Builder.writeVtable,
    FB.Builder.prependInt32Slot]
  rw [if_pos ha3]
  simp only [FB.findVtable_mk, FB.offset_mk, FB.place_mk,
    FB.pad_mk, FB.prep_mk, FB.slot_mk, FB.prependVOffset_mk, FB.new_mk,
    FB.prependSOffsetRelative_mk, FB.prependUOffsetRelative_mk, FB.finish_mk,
    FB.startObject_mk, FB.trimTrailingZeros, FB.leBytes2, FB.leBytes4, FB.leBytesInt,
    List.cons_append, List.nil_append, List.length_cons, List.length_nil,
    List.length_replicate, List.reverse_cons, List.reverse_nil,
    List.dropWhile, List.foldl_cons, List.foldl_nil, List.find?_nil,
    List.append_nil, List.set_cons_zero, List.set_cons_succ,
    reduceIte, decide_eq_true_eq, decide_True, decide_False, eq_self_iff_true,
    ne_eq, not_false_eq_true, not_true_eq_false, Int.reduceEq, Int.reduceNe,
    Option.getD_some, Option.getD_none, reduceCtorEq,
    Nat.max_def, Nat.add_zero, Nat.zero_add,
    Nat.reduceAdd, Nat.reduceSub, Nat.reduceMul, Nat.reduceDiv, Nat.reduceMod,
    Nat.reducePow, Nat.reduceLT, Nat.reduceGT, Nat.reduceEqDiff, Nat.reduceBeqDiff,
    Nat.reduceLeDiff, Nat.reduceSubDiff, List.reduceReplicate,
    Int.reduceSub, Int.reduceToNat]
  simp only [FB.setBytes, FB.findVtable_mk, FB.offset_mk, FB.place_mk,
    FB.pad_mk, FB.prep_mk, FB.slot_mk, FB.prependVOffset_mk, FB.new_mk,
    FB.prependSOffsetRelative_mk, FB.prependUOffsetRelative_mk, FB.finish_mk,
    FB.startObject_mk, FB.trimTrailingZeros, FB.leBytes2, FB.leBytes4, FB.leBytesInt,
    List.cons_append, List.nil_append, List.length_cons, List.length_nil,
    List.length_replicate, List.reverse_cons, List.reverse_nil,
    List.dropWhile, List.foldl_cons, List.foldl_nil, List.find?_nil,
    List.append_nil, List.set_cons_zero, List.set_cons_succ,
    reduceIte, decide_eq_true_eq, decide_True, decide_False, eq_self_iff_true,
    ne_eq, not_false_eq_true, not_true_eq_false, Int.reduceEq, Int.reduceNe,
    Option.getD_some, Option.getD_none, reduceCtorEq,
    Nat.max_def, Nat.add_zero, Nat.zero_add,
    Nat.reduceAdd, Nat.reduceSub, Nat.reduceMul, Nat.reduceDiv, Nat.reduceMod,
    Nat.reducePow, Nat.reduceLT, Nat.reduceGT, Nat.reduceEqDiff, Nat.reduceBeqDiff,
    Nat.reduceLeDiff, Nat.reduceSubDiff, List.reduceReplicate,
    Int.reduceSub, Int.reduceToNat]
  simp only [tflite.BCQGatherOptions.GetRootAsBCQGatherOptions, FB.encodeGetUOffset, FB.byteAt, FB.readLE,
    List.getD_cons_zero, List.getD_cons_succ, List.getD_nil, List.length_cons,
    List.length_nil, Option.map_some', Option.map_none',
    reduceIte, Nat.add_zero, Nat.zero_add,
    Nat.reduceAdd, Nat.reduceSub, Nat.reduceMul, Nat.reduceDiv, Nat.reduceMod,
    Nat.reduceLT, Nat.reduceGT, Nat.reduceEqDiff, Nat.reduceLeDiff]
  simp only [tflite.BCQGatherOptions.InputHiddenSize, tflite.BCQGatherOptions.Axis,
    FB.Table.Offset, FB.Table.GetInt8, FB.Table.GetInt32, FB.Table.GetBool,
    FB.byteAt, FB.readLE, FB.readSOffset, FB.readVOffsetI, FB.toSigned,
    List.getD_cons_zero, List.getD_cons_succ, List.getD_nil,
    ne_eq, not_false_eq_true, not_true_eq_false, decide_not,
    decide_eq_true_eq, decide_True, decide_False, reduceIte,
    Option.some.injEq, Prod.mk.injEq, Option.getD_some, Option.getD_none,
    Nat.add_zero, Nat.zero_add, and_true, true_and,
    Nat.reduceAdd, Nat.reduceSub, Nat.reduceMul, Nat.reduceDiv, Nat.reduceMod,
    Nat.reducePow, Nat.reduceLT, Nat.reduceGT, Nat.reduceEqDiff, Nat.reduceBeqDiff,
    Nat.reduceLeDiff, Nat.reduceSubDiff, reduceCtorEq,
    Int.reduceAdd, Int.reduceSub, Int.reduceMul, Int.reduceNeg, Int.reduceToNat,
    Int.reduceLT, Int.reduceLE, Int.reduceEq, Int.reduceNe, Int.reduceOfNat,
    Int.reducePow, Nat.cast_ofNat, Nat.cast_zero, Nat.cast_one]
  rw [toSigned32_rt a ha1 ha2]
  all_goals first
  | rfl
  | trivial
  | (and_intros <;> first | rfl | trivial)

/-- Round-trip helper for `BCQGatherOptions`, presence pattern sn. -/
theorem bcqRT_sn
    (h : Int) (hh1 : -2147483648 ≤ h) (hh2 : h < 2147483648) (hh3 : h ≠ 0) :
    (tflite.BCQGatherOptions.GetRootAsBCQGatherOptions
        (tflite.encodeBCQGatherOptions (some h) none) 0).map
      (fun t => (t.InputHiddenSize, t.Axis)) = some (h, 0) := by
  simp only [tflite.encodeBCQGatherOptions, tflite.BCQGatherOptionsStart,
    tflite.BCQGatherOptionsAddInputHiddenSize, tflite.BCQGatherOptionsAddAxis,
    tflite.BCQGatherOptionsEnd, FB.Builder.endObject, FB.Builder.writeVtable,
    FB.Builder.prependInt32Slot]
  rw [if_pos hh3]
  simp only [FB.findVtable_mk, FB.offset_mk, FB.place_mk,
    FB.pad_mk, FB.prep_mk, FB.slot_mk, FB.prependVOffset_mk, FB.new_mk,
    FB.prependSOffsetRelative_mk, FB.prependUOffsetRelative_mk, FB.finish_mk,
    FB.startObject_mk, FB.trimTrailingZeros, FB.leBytes2, FB.leBytes4, FB.leBytesInt,
    List.cons_append, List.nil_append, List.length_cons, List.length_nil,
    List.length_replicate, List.reverse_cons, List.reverse_nil,
    List.dropWhile, List.foldl_cons, List.foldl_nil, List.find?_nil,
    List.append_nil, List.set_cons_zero, List.set_cons_succ,
    reduceIte, decide_eq_true_eq, decide_True, decide_False, eq_self_iff_true,
    ne_eq, not_false_eq_true, not_true_eq_false, Int.reduceEq, Int.reduceNe,
    Option.getD_some, Option.getD_none, reduceCtorEq,
    Nat.max_def, Nat.add_zero, Nat.zero_add,
    Nat.reduceAdd, Nat.reduceSub, Nat.reduceMul, Nat.reduceDiv, Nat.reduceMod,
    Nat.reducePow, Nat.reduceLT, Nat.reduceGT, Nat.reduceEqDiff, Nat.reduceBeqDiff,
    Nat.reduceLeDiff, Nat.reduceSubDiff, List.reduceReplicate,
    Int.reduceSub, Int.reduceToNat]
  simp only [FB.setBytes, FB.findVtable_mk, FB.offset_mk, FB.place_mk,
    FB.pad_mk, FB.prep_mk, FB.slot_mk, FB.prependVOffset_mk, FB.new_mk,
    FB.prependSOffsetRelative_mk, FB.prependUOffsetRelative_mk, FB.finish_mk,
    FB.startObject_mk, FB.trimTrailingZeros, FB.leBytes2, FB.leBytes4, FB.leBytesInt,
    List.cons_append, List.nil_append, List.length_cons, List.length_nil,
    List.length_replicate, List.reverse_cons, List.reverse_nil,
    List.dropWhile, List.foldl_cons, List.foldl_nil, List.find?_nil,
    List.append_nil, List.set_cons_zero, List.set_cons_succ,
    reduceIte, decide_eq_true_eq, decide_True, decide_False, eq_self_iff_true,
    ne_eq, not_false_eq_true, not_true_eq_false, Int.reduceEq, Int.reduceNe,
    Option.getD_some, Option.getD_none, reduceCtorEq,
    Nat.max_def, Nat.add_zero, Nat.zero_add,
    Nat.reduceAdd, Nat.reduceSub, Nat.reduceMul, Nat.reduceDiv, Nat.reduceMod,
    Nat.reducePow, Nat.reduceLT, Nat.reduceGT, Nat.reduceEqDiff, Nat.reduceBeqDiff,
    Nat.reduceLeDiff, Nat.reduceSubDiff, List.reduceReplicate,
    Int.reduceSub, Int.reduceToNat]
  simp only [tflite.BCQGatherOptions.GetRootAsBCQGatherOptions, FB.encodeGetUOffset, FB.byteAt, FB.readLE,
    List.getD_cons_zero, List.getD_cons_succ, List.getD_nil, List.length_cons,
    List.length_nil, Option.map_some', Option.map_none',
    reduceIte, Nat.add_zero, Nat.zero_add,
    Nat.reduceAdd, Nat.reduceSub, Nat.reduceMul, Nat.reduceDiv, Nat.reduceMod,
    Nat.reduceLT, Nat.reduceGT, Nat.reduceEqDiff, Nat.reduceLeDiff]
  simp only [tflite.BCQGatherOptions.InputHiddenSize, tflite.BCQGatherOptions.Axis,
    FB.Table.Offset, FB.Table.GetInt8, FB.Table.GetInt32, FB.Table.GetBool,
    FB.byteAt, FB.readLE, FB.readSOffset, FB.readVOffsetI, FB.toSigned,
    List.getD_cons_zero, List.getD_cons_succ, List.getD_nil,
    ne_eq, not_false_eq_true, not_true_eq_false, decide_not,
    decide_eq_true_eq, decide_True, decide_False, reduceIte,
    Option.some.injEq, Prod.mk.injEq, Option.getD_some, Option.getD_none,
    Nat.add_zero, Nat.zero_add, and_true, true_and,
    Nat.reduceAdd, Nat.reduceSub, Nat.reduceMul, Nat.reduceDiv, Nat.reduceMod,
    Nat.reducePow, Nat.reduceLT, Nat.reduceGT, Nat.reduceEqDiff, Nat.reduceBeqDiff,
    Nat.reduceLeDiff, Nat.reduceSubDiff, reduceCtorEq,
    Int.reduceAdd, Int.reduceSub, Int.reduceMul, Int.reduceNeg, Int.reduceToNat,
    Int.reduceLT, Int.reduceLE, Int.reduceEq, Int.reduceNe, Int.reduceOfNat,
    Int.reducePow, Nat.cast_ofNat, Nat.cast_zero, Nat.cast_one]
  rw [toSigned32_rt h hh1 hh2]
  all_goals first
  | rfl
  | trivial
  | (and_intros <;> first | rfl | trivial)

/-- Round-trip helper for `BCQGatherOptions`, presence pattern ss. -/
theorem bcqRT_ss
    (h : Int) (hh1 : -2147483648 ≤ h) (hh2 : h < 2147483648) (hh3 : h ≠ 0) (a : Int) (ha1 : -2147483648 ≤ a) (ha2 : a < 2147483648) (ha3 : a ≠ 0) :
    (tflite.BCQGatherOptions.GetRootAsBCQGatherOptions
        (tflite.encodeBCQGatherOptions (some h) (some a)) 0).map
      (fun t => (t.InputHiddenSize, t.Axis)) = some (h, a) := by
  simp only [tflite.encodeBCQGatherOptions, tflite.BCQGatherOptionsStart,
    tflite.BCQGatherOptionsAddInputHiddenSize, tflite.BCQGatherOptionsAddAxis,
    tflite.BCQGatherOptionsEnd, FB.Builder.endObject, FB.Builder.writeVtable,
    FB.Builder.prependInt32Slot]
  rw [if_pos hh3, if_pos ha3]
  simp only [FB.findVtable_mk, FB.offset_mk, FB.place_mk,
    FB.pad_mk, FB.prep_mk, FB.slot_mk, FB.prependVOffset_mk, FB.new_mk,
    FB.prependSOffsetRelative_mk, FB.prependUOffsetRelative_mk, FB.finish_mk,
    FB.startObject_mk, FB.trimTrailingZeros, FB.leBytes2, FB.leBytes4, FB.leBytesInt,
    List.cons_append, List.nil_append, List.length_cons, List.length_nil,
    List.length_replicate, List.reverse_cons, List.reverse_nil,
    List.dropWhile, List.foldl_cons, List.foldl_nil, List.find?_nil,
    List.append_nil, List.set_cons_zero, List.set_cons_succ,
    reduceIte, decide_eq_true_eq, decide_True, decide_False, eq_self_iff_true,
    ne_eq, not_false_eq_true, not_true_eq_false, Int.reduceEq, Int.reduceNe,
    Option.getD_some, Option.getD_none, reduceCtorEq,
    Nat.max_def, Nat.add_zero, Nat.zero_add,
    Nat.reduceAdd, Nat.reduceSub, Nat.reduceMul, Nat.reduceDiv, Nat.reduceMod,
    Nat.reducePow, Nat.reduceLT, Nat.reduceGT, Nat.reduceEqDiff, Nat.reduceBeqDiff,
    Nat.reduceLeDiff, Nat.reduceSubDiff, List.reduceReplicate,
    Int.reduceSub, Int.reduceToNat]
  simp only [FB.setBytes, FB.findVtable_mk, FB.offset_mk, FB.place_mk,
    FB.pad_mk, FB.prep_mk, FB.slot_mk, FB.prependVOffset_mk, FB.new_mk,
    FB.prependSOffsetRelative_mk, FB.prependUOffsetRelative_mk, FB.finish_mk,
    FB.startObject_mk, FB.trimTrailingZeros, FB.leBytes2, FB.leBytes4, FB.leBytesInt,
    List.cons_append, List.nil_append, List.length_cons, List.length_nil,
    List.length_replicate, List.reverse_cons, List.reverse_nil,
    List.dropWhile, List.foldl_cons, List.foldl_nil, List.find?_nil,
    List.append_nil, List.set_cons_zero, List.set_cons_succ,
    reduceIte, decide_eq_true_eq, decide_True, decide_False, eq_self_iff_true,
    ne_eq, not_false_eq_true, not_true_eq_false, Int.reduceEq, Int.reduceNe,
    Option.getD_some, Option.getD_none, reduceCtorEq,
    Nat.max_def, Nat.add_zero, Nat.zero_add,
    Nat.reduceAdd, Nat.reduceSub, Nat.reduceMul, Nat.reduceDiv, Nat.reduceMod,
    Nat.reducePow, Nat.reduceLT, Nat.reduceGT, Nat.reduceEqDiff, Nat.reduceBeqDiff,
    Nat.reduceLeDiff, Nat.reduceSubDiff, List.reduceReplicate,
    Int.reduceSub, Int.reduceToNat]
  simp only [tflite.BCQGatherOptions.GetRootAsBCQGatherOptions, FB.encodeGetUOffset, FB.byteAt, FB.readLE,
    List.getD_cons_zero, List.getD_cons_succ, List.getD_nil, List.length_cons,
    List.length_nil, Option.map_some', Option.map_none',
    reduceIte, Nat.add_zero, Nat.zero_add,
    Nat.reduceAdd, Nat.reduceSub, Nat.reduceMul, Nat.reduceDiv, Nat.reduceMod,
    Nat.reduceLT, Nat.reduceGT, Nat.reduceEqDiff, Nat.reduceLeDiff]
  simp only [tflite.BCQGatherOptions.InputHiddenSize, tflite.BCQGatherOptions.Axis,
    FB.Table.Offset, FB.Table.GetInt8, FB.Table.GetInt32, FB.Table.GetBool,
    FB.byteAt, FB.readLE, FB.readSOffset, FB.readVOffsetI, FB.toSigned,
    List.getD_cons_zero, List.getD_cons_succ, List.getD_nil,
    ne_eq, not_false_eq_true, not_true_eq_false, decide_not,
    decide_eq_true_eq, decide_True, decide_False, reduceIte,
    Option.some.injEq, Prod.mk.injEq, Option.getD_some, Option.getD_none,
    Nat.add_zero, Nat.zero_add, and_true, true_and,
    Nat.reduceAdd, Nat.reduceSub, Nat.reduceMul, Nat.reduceDiv, Nat.reduceMod,
    Nat.reducePow, Nat.reduceLT, Nat.reduceGT, Nat.reduceEqDiff, Nat.reduceBeqDiff,
    Nat.reduceLeDiff, Nat.reduceSubDiff, reduceCtorEq,
    Int.reduceAdd, Int.reduceSub, Int.reduceMul, Int.reduceNeg, Int.reduceToNat,
    Int.reduceLT, Int.reduceLE, Int.reduceEq, Int.reduceNe, Int.reduceOfNat,
    Int.reducePow, Nat.cast_ofNat, Nat.cast_zero, Nat.cast_one]
  rw [toSigned32_rt h hh1 hh2, toSigned32_rt a ha1 ha2]
  all_goals first
  | rfl
  | trivial
  | (and_intros <;> first | rfl | trivial)

/-- Round-trip helper for `FullyConnectedOptions`, presence pattern nnnn. -/
theorem fcoRT_nnnn :
    (tflite.FullyConnectedOptions.GetRootAsFullyConnectedOptions
        (tflite.encodeFullyConnectedOptions none none none none) 0).map
      (fun t => (t.FusedActivationFunction, t.WeightsFormat, t.KeepNumDims,
        t.AsymmetricQuantizeInputs)) = some (0, 0, false, false) := by
  decide

/-- Round-trip helper for `FullyConnectedOptions`, presence pattern nnns. -/
theorem fcoRT_nnns :
    (tflite.FullyConnectedOptions.GetRootAsFullyConnectedOptions
        (tflite.encodeFullyConnectedOptions none none none (some true)) 0).map
      (fun t => (t.FusedActivationFunction, t.WeightsFormat, t.KeepNumDims,
        t.AsymmetricQuantizeInputs)) = some (0, 0, false, true) := by
  decide

/-- Round-trip helper for `FullyConnectedOptions`, presence pattern nnsn. -/
theorem fcoRT_nnsn :
    (tflite.FullyConnectedOptions.GetRootAsFullyConnectedOptions
        (tflite.encodeFullyConnectedOptions none none (some true) none) 0).map
      (fun t => (t.FusedActivationFunction, t.WeightsFormat, t.KeepNumDims,
        t.AsymmetricQuantizeInputs)) = some (0, 0, true, false) := by
  decide

/-- Round-trip helper for `FullyConnectedOptions`, presence pattern nnss. -/
theorem fcoRT_nnss :
    (tflite.FullyConnectedOptions.GetRootAsFullyConnectedOptions
        (tflite.encodeFullyConnectedOptions none none (some true) (some true)) 0).map
      (fun t => (t.FusedActivationFunction, t.WeightsFormat, t.KeepNumDims,
        t.AsymmetricQuantizeInputs)) = some (0, 0, true, true) := by
  decide

/-- Round-trip helper for `FullyConnectedOptions`, presence pattern nsnn. -/
theorem fcoRT_nsnn
    (b : Int) (hb1 : -128 ≤ b) (hb2 : b < 128) (hb3 : b ≠ 0) :
    (tflite.FullyConnectedOptions.GetRootAsFullyConnectedOptions
        (tflite.encodeFullyConnectedOptions none (some b) none none) 0).map
      (fun t => (t.FusedActivationFunction, t.WeightsFormat, t.KeepNumDims,
        t.AsymmetricQuantizeInputs)) = some (0, b, false, false) := by
  simp only [tflite.encodeFullyConnectedOptions, tflite.FullyConnectedOptionsStart,
    tflite.FullyConnectedOptionsAddFusedActivationFunction,
    tflite.FullyConnectedOptionsAddWeightsFormat,
    tflite.FullyConnectedOptionsAddKeepNumDims,
    tflite.FullyConnectedOptionsAddAsymmetricQuantizeInputs,
    tflite.FullyConnectedOptionsEnd, FB.Builder.endObject, FB.Builder.writeVtable,
    FB.Builder.prependInt8Slot, FB.Builder.prependBoolSlot]
  rw [if_pos hb3]
  simp only [FB.findVtable_mk, FB.offset_mk, FB.place_mk,
    FB.pad_mk, FB.prep_mk, FB.slot_mk, FB.prependVOffset_mk, FB.new_mk,
    FB.prependSOffsetRelative_mk, FB.prependUOffsetRelative_mk, FB.finish_mk,
    FB.startObject_mk, FB.trimTrailingZeros, FB.leBytes2, FB.leBytes4, FB.leBytesInt,
    List.cons_append, List.nil_append, List.length_cons, List.length_nil,
    List.length_replicate, List.reverse_cons, List.reverse_nil,
    List.dropWhile, List.foldl_cons, List.foldl_nil, List.find?_nil,
    List.append_nil, List.set_cons_zero, List.set_cons_succ,
    reduceIte, decide_eq_true_eq, decide_True, decide_False, eq_self_iff_true,
    ne_eq, not_false_eq_true, not_true_eq_false, Int.reduceEq, Int.reduceNe,
    Option.getD_some, Option.getD_none, reduceCtorEq,
    Nat.max_def, Nat.add_zero, Nat.zero_add,
    Nat.reduceAdd, Nat.reduceSub, Nat.reduceMul, Nat.reduceDiv, Nat.reduceMod,
    Nat.reducePow, Nat.reduceLT, Nat.reduceGT, Nat.reduceEqDiff, Nat.reduceBeqDiff,
    Nat.reduceLeDiff, Nat.reduceSubDiff, List.reduceReplicate,
    Int.reduceSub, Int.reduceToNat]
  simp only [FB.setBytes, FB.findVtable_mk, FB.offset_mk, FB.place_mk,
    FB.pad_mk, FB.prep_mk, FB.slot_mk, FB.prependVOffset_mk, FB.new_mk,
    FB.prependSOffsetRelative_mk, FB.prependUOffsetRelative_mk, FB.finish_mk,
    FB.startObject_mk, FB.trimTrailingZeros, FB.leBytes2, FB.leBytes4, FB.leBytesInt,
    List.cons_append, List.nil_append, List.length_cons, List.length_nil,
    List.length_replicate, List.reverse_cons, List.reverse_nil,
    List.dropWhile, List.foldl_cons, List.foldl_nil, List.find?_nil,
    List.append_nil, List.set_cons_zero, List.set_cons_succ,
    reduceIte, decide_eq_true_eq, decide_True, decide_False, eq_self_iff_true,
    ne_eq, not_false_eq_true, not_true_eq_false, Int.reduceEq, Int.reduceNe,
    Option.getD_some, Option.getD_none, reduceCtorEq,
    Nat.max_def, Nat.add_zero, Nat.zero_add,
    Nat.reduceAdd, Nat.reduceSub, Nat.reduceMul, Nat.reduceDiv, Nat.reduceMod,
    Nat.reducePow, Nat.reduceLT, Nat.reduceGT, Nat.reduceEqDiff, Nat.reduceBeqDiff,
    Nat.reduceLeDiff, Nat.reduceSubDiff, List.reduceReplicate,
    Int.reduceSub, Int.reduceToNat]
  simp only [tflite.FullyConnectedOptions.GetRootAsFullyConnectedOptions, FB.encodeGetUOffset, FB.byteAt, FB.readLE,
    List.getD_cons_zero, List.getD_cons_succ, List.getD_nil, List.length_cons,
    List.length_nil, Option.map_some', Option.map_none',
    reduceIte, Nat.add_zero, Nat.zero_add,
    Nat.reduceAdd, Nat.reduceSub, Nat.reduceMul, Nat.reduceDiv, Nat.reduceMod,
    Nat.reduceLT, Nat.reduceGT, Nat.reduceEqDiff, Nat.reduceLeDiff]
  simp only [tflite.FullyConnectedOptions.FusedActivationFunction,
    tflite.FullyConnectedOptions.WeightsFormat,
    tflite.FullyConnectedOptions.KeepNumDims,
    tflite.FullyConnectedOptions.AsymmetricQuantizeInputs,
    FB.Table.Offset, FB.Table.GetInt8, FB.Table.GetInt32, FB.Table.GetBool,
    FB.byteAt, FB.readLE, FB.readSOffset, FB.readVOffsetI, FB.toSigned,
    List.getD_cons_zero, List.getD_cons_succ, List.getD_nil,
    ne_eq, not_false_eq_true, not_true_eq_false, decide_not,
    decide_eq_true_eq, decide_True, decide_False, reduceIte,
    Option.some.injEq, Prod.mk.injEq, Option.getD_some, Option.getD_none,
    Nat.add_zero, Nat.zero_add, and_true, true_and,
    Nat.reduceAdd, Nat.reduceSub, Nat.reduceMul, Nat.reduceDiv, Nat.reduceMod,
    Nat.reducePow, Nat.reduceLT, Nat.reduceGT, Nat.reduceEqDiff, Nat.reduceBeqDiff,
    Nat.reduceLeDiff, Nat.reduceSubDiff, reduceCtorEq,
    Int.reduceAdd, Int.reduceSub, Int.reduceMul, Int.reduceNeg, Int.reduceToNat,
    Int.reduceLT, Int.reduceLE, Int.reduceEq, Int.reduceNe, Int.reduceOfNat,
    Int.reducePow, Nat.cast_ofNat, Nat.cast_zero, Nat.cast_one]
  rw [toSigned8_rt b hb1 hb2]
  all_goals first
  | rfl
  | trivial
  | (and_intros <;> first | rfl | trivial)

/-- Round-trip helper for `FullyConnectedOptions`, presence pattern nsns. -/
theorem fcoRT_nsns
    (b : Int) (hb1 : -128 ≤ b) (hb2 : b < 128) (hb3 : b ≠ 0) :
    (tflite.FullyConnectedOptions.GetRootAsFullyConnectedOptions
        (tflite.encodeFullyConnectedOptions none (some b) none (some true)) 0).map
      (fun t => (t.FusedActivationFunction, t.WeightsFormat, t.KeepNumDims,
        t.AsymmetricQuantizeInputs)) = some (0, b, false, true) := by
  simp only [tflite.encodeFullyConnectedOptions, tflite.FullyConnectedOptionsStart,
    tflite.FullyConnectedOptionsAddFusedActivationFunction,
    tflite.FullyConnectedOptionsAddWeightsFormat,
    tflite.FullyConnectedOptionsAddKeepNumDims,
    tflite.FullyConnectedOptionsAddAsymmetricQuantizeInputs,
    tflite.FullyConnectedOptionsEnd, FB.Builder.endObject, FB.Builder.writeVtable,
    FB.Builder.prependInt8Slot, FB.Builder.prependBoolSlot]
  rw [if_pos hb3]
  simp only [FB.findVtable_mk, FB.offset_mk, FB.place_mk,
    FB.pad_mk, FB.prep_mk, FB.slot_mk, FB.prependVOffset_mk, FB.new_mk,
    FB.prependSOffsetRelative_mk, FB.prependUOffsetRelative_mk, FB.finish_mk,
    FB.startObject_mk, FB.trimTrailingZeros, FB.leBytes2, FB.leBytes4, FB.leBytesInt,
    List.cons_append, List.nil_append, List.length_cons, List.length_nil,
    List.length_replicate, List.reverse_cons, List.reverse_nil,
    List.dropWhile, List.foldl_cons, List.foldl_nil, List.find?_nil,
    List.append_nil, List.set_cons_zero, List.set_cons_succ,
    reduceIte, decide_eq_true_eq, decide_True, decide_False, eq_self_iff_true,
    ne_eq, not_false_eq_true, not_true_eq_false, Int.reduceEq, Int.reduceNe,
    Option.getD_some, Option.getD_none, reduceCtorEq,
    Nat.max_def, Nat.add_zero, Nat.zero_add,
    Nat.reduceAdd, Nat.reduceSub, Nat.reduceMul, Nat.reduceDiv, Nat.reduceMod,
    Nat.reducePow, Nat.reduceLT, Nat.reduceGT, Nat.reduceEqDiff, Nat.reduceBeqDiff,
    Nat.reduceLeDiff, Nat.reduceSubDiff, List.reduceReplicate,
    Int.reduceSub, Int.reduceToNat]
  simp only [FB.setBytes, FB.findVtable_mk, FB.offset_mk, FB.place_mk,
    FB.pad_mk, FB.prep_mk, FB.slot_mk, FB.prependVOffset_mk, FB.new_mk,
    FB.prependSOffsetRelative_mk, FB.prependUOffsetRelative_mk, FB.finish_mk,
    FB.startObject_mk, FB.trimTrailingZeros, FB.leBytes2, FB.leBytes4, FB.leBytesInt,
    List.cons_append, List.nil_append, List.length_cons, List.length_nil,
    List.length_replicate, List.reverse_cons, List.reverse_nil,
    List.dropWhile, List.foldl_cons, List.foldl_nil, List.find?_nil,
    List.append_nil, List.set_cons_zero, List.set_cons_succ,
    reduceIte, decide_eq_true_eq, decide_True, decide_False, eq_self_iff_true,
    ne_eq, not_false_eq_true, not_true_eq_false, Int.reduceEq, Int.reduceNe,
    Option.getD_some, Option.getD_none, reduceCtorEq,
    Nat.max_def, Nat.add_zero, Nat.zero_add,
    Nat.reduceAdd, Nat.reduceSub, Nat.reduceMul, Nat.reduceDiv, Nat.reduceMod,
    Nat.reducePow, Nat.reduceLT, Nat.reduceGT, Nat.reduceEqDiff, Nat.reduceBeqDiff,
    Nat.reduceLeDiff, Nat.reduceSubDiff, List.reduceReplicate,
    Int.reduceSub, Int.reduceToNat]
  simp only [tflite.FullyConnectedOptions.GetRootAsFullyConnectedOptions, FB.encodeGetUOffset, FB.byteAt, FB.readLE,
    List.getD_cons_zero, List.getD_cons_succ, List.getD_nil, List.length_cons,
    List.length_nil, Option.map_some', Option.map_none',
    reduceIte, Nat.add_zero, Nat.zero_add,
    Nat.reduceAdd, Nat.reduceSub, Nat.reduceMul, Nat.reduceDiv, Nat.reduceMod,
    Nat.reduceLT, Nat.reduceGT, Nat.reduceEqDiff, Nat.reduceLeDiff]
  simp only [tflite.FullyConnectedOptions.FusedActivationFunction,
    tflite.FullyConnectedOptions.WeightsFormat,
    tflite.FullyConnectedOptions.KeepNumDims,
    tflite.FullyConnectedOptions.AsymmetricQuantizeInputs,
    FB.Table.Offset, FB.Table.GetInt8, FB.Table.GetInt32, FB.Table.GetBool,
    FB.byteAt, FB.readLE, FB.readSOffset, FB.readVOffsetI, FB.toSigned,
    List.getD_cons_zero, List.getD_cons_succ, List.getD_nil,
    ne_eq, not_false_eq_true, not_true_eq_false, decide_not,
    decide_eq_true_eq, decide_True, decide_False, reduceIte,
    Option.some.injEq, Prod.mk.injEq, Option.getD_some, Option.getD_none,
    Nat.add_zero, Nat.zero_add, and_true, true_and,
    Nat.reduceAdd, Nat.reduceSub, Nat.reduceMul, Nat.reduceDiv, Nat.reduceMod,
    Nat.reducePow, Nat.reduceLT, Nat.reduceGT, Nat.reduceEqDiff, Nat.reduceBeqDiff,
    Nat.reduceLeDiff, Nat.reduceSubDiff, reduceCtorEq,
    Int.reduceAdd, Int.reduceSub, Int.reduceMul, Int.reduceNeg, Int.reduceToNat,
    Int.reduceLT, Int.reduceLE, Int.reduceEq, Int.reduceNe, Int.reduceOfNat,
    Int.reducePow, Nat.cast_ofNat, Nat.cast_zero, Nat.cast_one]
  rw [toSigned8_rt b hb1 hb2]
  all_goals first
  | rfl
  | trivial
  | (and_intros <;> first | rfl | trivial)

/-- Round-trip helper for `FullyConnectedOptions`, presence pattern nssn. -/
theorem fcoRT_nssn
    (b : Int) (hb1 : -128 ≤ b) (hb2 : b < 128) (hb3 : b ≠ 0) :
    (tflite.FullyConnectedOptions.GetRootAsFullyConnectedOptions
        (tflite.encodeFullyConnectedOptions none (some b) (some true) none) 0).map
      (fun t => (t.FusedActivationFunction, t.WeightsFormat, t.KeepNumDims,
        t.AsymmetricQuantizeInputs)) = some (0, b, true, false) := by
  simp only [tflite.encodeFullyConnectedOptions, tflite.FullyConnectedOptionsStart,
    tflite.FullyConnectedOptionsAddFusedActivationFunction,
    tflite.FullyConnectedOptionsAddWeightsFormat,
    tflite.FullyConnectedOptionsAddKeepNumDims,
    tflite.FullyConnectedOptionsAddAsymmetricQuantizeInputs,
    tflite.FullyConnectedOptionsEnd, FB.Builder.endObject, FB.Builder.writeVtable,
    FB.Builder.prependInt8Slot, FB.Builder.prependBoolSlot]
  rw [if_pos hb3]
  simp only [FB.findVtable_mk, FB.offset_mk, FB.place_mk,
    FB.pad_mk, FB.prep_mk, FB.slot_mk, FB.prependVOffset_mk, FB.new_mk,
    FB.prependSOffsetRelative_mk, FB.prependUOffsetRelative_mk, FB.finish_mk,
    FB.startObject_mk, FB.trimTrailingZeros, FB.leBytes2, FB.leBytes4, FB.leBytesInt,
    List.cons_append, List.nil_append, List.length_cons, List.length_nil,
    List.length_replicate, List.reverse_cons, List.reverse_nil,
    List.dropWhile, List.foldl_cons, List.foldl_nil, List.find?_nil,
    List.append_nil, List.set_cons_zero, List.set_cons_succ,
    reduceIte, decide_eq_true_eq, decide_True, decide_False, eq_self_iff_true,
    ne_eq, not_false_eq_true, not_true_eq_false, Int.reduceEq, Int.reduceNe,
    Option.getD_some, Option.getD_none, reduceCtorEq,
    Nat.max_def, Nat.add_zero, Nat.zero_add,
    Nat.reduceAdd, Nat.reduceSub, Nat.reduceMul, Nat.reduceDiv, Nat.reduceMod,
    Nat.reducePow, Nat.reduceLT, Nat.reduceGT, Nat.reduceEqDiff, Nat.reduceBeqDiff,
    Nat.reduceLeDiff, Nat.reduceSubDiff, List.reduceReplicate,
    Int.reduceSub, Int.reduceToNat]
  simp only [FB.setBytes, FB.findVtable_mk, FB.offset_mk, FB.place_mk,
    FB.pad_mk, FB.prep_mk, FB.slot_mk, FB.prependVOffset_mk, FB.new_mk,
    FB.prependSOffsetRelative_mk, FB.prependUOffsetRelative_mk, FB.finish_mk,
    FB.startObject_mk, FB.trimTrailingZeros, FB.leBytes2, FB.leBytes4, FB.leBytesInt,
    List.cons_append, List.nil_append, List.length_cons, List.length_nil,
    List.length_replicate, List.reverse_cons, List.reverse_nil,
    List.dropWhile, List.foldl_cons, List.foldl_nil, List.find?_nil,
    List.append_nil, List.set_cons_zero, List.set_cons_succ,
    reduceIte, decide_eq_true_eq, decide_True, decide_False, eq_self_iff_true,
    ne_eq, not_false_eq_true, not_true_eq_false, Int.reduceEq, Int.reduceNe,
    Option.getD_some, Option.getD_none, reduceCtorEq,
    Nat.max_def, Nat.add_zero, Nat.zero_add,
    Nat.reduceAdd, Nat.reduceSub, Nat.reduceMul, Nat.reduceDiv, Nat.reduceMod,
    Nat.reducePow, Nat.reduceLT, Nat.reduceGT, Nat.reduceEqDiff, Nat.reduceBeqDiff,
    Nat.reduceLeDiff, Nat.reduceSubDiff, List.reduceReplicate,
    Int.reduceSub, Int.reduceToNat]
  simp only [tflite.FullyConnectedOptions.GetRootAsFullyConnectedOptions, FB.encodeGetUOffset, FB.byteAt, FB.readLE,
    List.getD_cons_zero, List.getD_cons_succ, List.getD_nil, List.length_cons,
    List.length_nil, Option.map_some', Option.map_none',
    reduceIte, Nat.add_zero, Nat.zero_add,
    Nat.reduceAdd, Nat.reduceSub, Nat.reduceMul, Nat.reduceDiv, Nat.reduceMod,
    Nat.reduceLT, Nat.reduceGT, Nat.reduceEqDiff, Nat.reduceLeDiff]
  simp only [tflite.FullyConnectedOptions.FusedActivationFunction,
    tflite.FullyConnectedOptions.WeightsFormat,
    tflite.FullyConnectedOptions.KeepNumDims,
    tflite.FullyConnectedOptions.AsymmetricQuantizeInputs,
    FB.Table.Offset, FB.Table.GetInt8, FB.Table.GetInt32, FB.Table.GetBool,
    FB.byteAt, FB.readLE, FB.readSOffset, FB.readVOffsetI, FB.toSigned,
    List.getD_cons_zero, List.getD_cons_succ, List.getD_nil,
    ne_eq, not_false_eq_true, not_true_eq_false, decide_not,
    decide_eq_true_eq, decide_True, decide_False, reduceIte,
    Option.some.injEq, Prod.mk.injEq, Option.getD_some, Option.getD_none,
    Nat.add_zero, Nat.zero_add, and_true, true_and,
    Nat.reduceAdd, Nat.reduceSub, Nat.reduceMul, Nat.reduceDiv, Nat.reduceMod,
    Nat.reducePow, Nat.reduceLT, Nat.reduceGT, Nat.reduceEqDiff, Nat.reduceBeqDiff,
    Nat.reduceLeDiff, Nat.reduceSubDiff, reduceCtorEq,
    Int.reduceAdd, Int.reduceSub, Int.reduceMul, Int.reduceNeg, Int.reduceToNat,
    Int.reduceLT, Int.reduceLE, Int.reduceEq, Int.reduceNe, Int.reduceOfNat,
    Int.reducePow, Nat.cast_ofNat, Nat.cast_zero, Nat.cast_one]
  rw [toSigned8_rt b hb1 hb2]
  all_goals first
  | rfl
  | trivial
  | (and_intros <;> first | rfl | trivial)

/-- Round-trip helper for `FullyConnectedOptions`, presence pattern nsss. -/
theorem fcoRT_nsss
    (b : Int) (hb1 : -128 ≤ b) (hb2 : b < 128) (hb3 : b ≠ 0) :
    (tflite.FullyConnectedOptions.GetRootAsFullyConnectedOptions
        (tflite.encodeFullyConnectedOptions none (some b) (some true) (some true)) 0).map
      (fun t => (t.FusedActivationFunction, t.WeightsFormat, t.KeepNumDims,
        t.AsymmetricQuantizeInputs)) = some (0, b, true, true) := by
  simp only [tflite.encodeFullyConnectedOptions, tflite.FullyConnectedOptionsStart,
    tflite.FullyConnectedOptionsAddFusedActivationFunction,
    tflite.FullyConnectedOptionsAddWeightsFormat,
    tflite.FullyConnectedOptionsAddKeepNumDims,
    tflite.FullyConnectedOptionsAddAsymmetricQuantizeInputs,
    tflite.FullyConnectedOptionsEnd, FB.Builder.endObject, FB.Builder.writeVtable,
    FB.Builder.prependInt8Slot, FB.Builder.prependBoolSlot]
  rw [if_pos hb3]
  simp only [FB.findVtable_mk, FB.offset_mk, FB.place_mk,
    FB.pad_mk, FB.prep_mk, FB.slot_mk, FB.prependVOffset_mk, FB.new_mk,
    FB.prependSOffsetRelative_mk, FB.prependUOffsetRelative_mk, FB.finish_mk,
    FB.startObject_mk, FB.trimTrailingZeros, FB.leBytes2, FB.leBytes4, FB.leBytesInt,
    List.cons_append, List.nil_append, List.length_cons, List.length_nil,
    List.length_replicate, List.reverse_cons, List.reverse_nil,
    List.dropWhile, List.foldl_cons, List.foldl_nil, List.find?_nil,
    List.append_nil, List.set_cons_zero, List.set_cons_succ,
    reduceIte, decide_eq_true_eq, decide_True, decide_False, eq_self_iff_true,
    ne_eq, not_false_eq_true, not_true_eq_false, Int.reduceEq, Int.reduceNe,
    Option.getD_some, Option.getD_none, reduceCtorEq,
    Nat.max_def, Nat.add_zero, Nat.zero_add,
    Nat.reduceAdd, Nat.reduceSub, Nat.reduceMul, Nat.reduceDiv, Nat.reduceMod,
    Nat.reducePow, Nat.reduceLT, Nat.reduceGT, Nat.reduceEqDiff, Nat.reduceBeqDiff,
    Nat.reduceLeDiff, Nat.reduceSubDiff, List.reduceReplicate,
    Int.reduceSub, Int.reduceToNat]
  simp only [FB.setBytes, FB.findVtable_mk, FB.offset_mk, FB.place_mk,
    FB.pad_mk, FB.prep_mk, FB.slot_mk, FB.prependVOffset_mk, FB.new_mk,
    FB.prependSOffsetRelative_mk, FB.prependUOffsetRelative_mk, FB.finish_mk,
    FB.startObject_mk, FB.trimTrailingZeros, FB.leBytes2, FB.leBytes4, FB.leBytesInt,
    List.cons_append, List.nil_append, List.length_cons, List.length_nil,
    List.length_replicate, List.reverse_cons, List.reverse_nil,
    List.dropWhile, List.foldl_cons, List.foldl_nil, List.find?_nil,
    List.append_nil, List.set_cons_zero, List.set_cons_succ,
    reduceIte, decide_eq_true_eq, decide_True, decide_False, eq_self_iff_true,
    ne_eq, not_false_eq_true, not_true_eq_false, Int.reduceEq, Int.reduceNe,
    Option.getD_some, Option.getD_none, reduceCtorEq,
    Nat.max_def, Nat.add_zero, Nat.zero_add,
    Nat.reduceAdd, Nat.reduceSub, Nat.reduceMul, Nat.reduceDiv, Nat.reduceMod,
    Nat.reducePow, Nat.reduceLT, Nat.reduceGT, Nat.reduceEqDiff, Nat.reduceBeqDiff,
    Nat.reduceLeDiff, Nat.reduceSubDiff, List.reduceReplicate,
    Int.reduceSub, Int.reduceToNat]
  simp only [tflite.FullyConnectedOptions.GetRootAsFullyConnectedOptions, FB.encodeGetUOffset, FB.byteAt, FB.readLE,
    List.getD_cons_zero, List.getD_cons_succ, List.getD_nil, List.length_cons,
    List.length_nil, Option.map_some', Option.map_none',
    reduceIte, Nat.add_zero, Nat.zero_add,
    Nat.reduceAdd, Nat.reduceSub, Nat.reduceMul, Nat.reduceDiv, Nat.reduceMod,
    Nat.reduceLT, Nat.reduceGT, Nat.reduceEqDiff, Nat.reduceLeDiff]
  simp only [tflite.FullyConnectedOptions.FusedActivationFunction,
    tflite.FullyConnectedOptions.WeightsFormat,
    tflite.FullyConnectedOptions.KeepNumDims,
    tflite.FullyConnectedOptions.AsymmetricQuantizeInputs,
    FB.Table.Offset, FB.Table.GetInt8, FB.Table.GetInt32, FB.Table.GetBool,
    FB.byteAt, FB.readLE, FB.readSOffset, FB.readVOffsetI, FB.toSigned,
    List.getD_cons_zero, List.getD_cons_succ, List.getD_nil,
    ne_eq, not_false_eq_true, not_true_eq_false, decide_not,
    decide_eq_true_eq, decide_True, decide_False, reduceIte,
    Option.some.injEq, Prod.mk.injEq, Option.getD_some, Option.getD_none,
    Nat.add_zero, Nat.zero_add, and_true, true_and,
    Nat.reduceAdd, Nat.reduceSub, Nat.reduceMul, Nat.reduceDiv, Nat.reduceMod,
    Nat.reducePow, Nat.reduceLT, Nat.reduceGT, Nat.reduceEqDiff, Nat.reduceBeqDiff,
    Nat.reduceLeDiff, Nat.reduceSubDiff, reduceCtorEq,
    Int.reduceAdd, Int.reduceSub, Int.reduceMul, Int.reduceNeg, Int.reduceToNat,
    Int.reduceLT, Int.reduceLE, Int.reduceEq, Int.reduceNe, Int.reduceOfNat,
    Int.reducePow, Nat.cast_ofNat, Nat.cast_zero, Nat.cast_one]
  rw [toSigned8_rt b hb1 hb2]
  all_goals first
  | rfl
  | trivial
  | (and_intros <;> first | rfl | trivial)

/-- Round-trip helper for `FullyConnectedOptions`, presence pattern snnn. -/
theorem fcoRT_snnn
    (a : Int) (ha1 : -128 ≤ a) (ha2 : a < 128) (ha3 : a ≠ 0) :
    (tflite.FullyConnectedOptions.GetRootAsFullyConnectedOptions
        (tflite.encodeFullyConnectedOptions (some a) none none none) 0).map
      (fun t => (t.FusedActivationFunction, t.WeightsFormat, t.KeepNumDims,
        t.AsymmetricQuantizeInputs)) = some (a, 0, false, false) := by
  simp only [tflite.encodeFullyConnectedOptions, tflite.FullyConnectedOptionsStart,
    tflite.FullyConnectedOptionsAddFusedActivationFunction,
    tflite.FullyConnectedOptionsAddWeightsFormat,
    tflite.FullyConnectedOptionsAddKeepNumDims,
    tflite.FullyConnectedOptionsAddAsymmetricQuantizeInputs,
    tflite.FullyConnectedOptionsEnd, FB.Builder.endObject, FB.Builder.writeVtable,
    FB.Builder.prependInt8Slot, FB.Builder.prependBoolSlot]
  rw [if_pos ha3]
  simp only [FB.findVtable_mk, FB.offset_mk, FB.place_mk,
    FB.pad_mk, FB.prep_mk, FB.slot_mk, FB.prependVOffset_mk, FB.new_mk,
    FB.prependSOffsetRelative_mk, FB.prependUOffsetRelative_mk, FB.finish_mk,
    FB.startObject_mk, FB.trimTrailingZeros, FB.leBytes2, FB.leBytes4, FB.leBytesInt,
    List.cons_append, List.nil_append, List.length_cons, List.length_nil,
    List.length_replicate, List.reverse_cons, List.reverse_nil,
    List.dropWhile, List.foldl_cons, List.foldl_nil, List.find?_nil,
    List.append_nil, List.set_cons_zero, List.set_cons_succ,
    reduceIte, decide_eq_true_eq, decide_True, decide_False, eq_self_iff_true,
    ne_eq, not_false_eq_true, not_true_eq_false, Int.reduceEq, Int.reduceNe,
    Option.getD_some, Option.getD_none, reduceCtorEq,
    Nat.max_def, Nat.add_zero, Nat.zero_add,
    Nat.reduceAdd, Nat.reduceSub, Nat.reduceMul, Nat.reduceDiv, Nat.reduceMod,
    Nat.reducePow, Nat.reduceLT, Nat.reduceGT, Nat.reduceEqDiff, Nat.reduceBeqDiff,
    Nat.reduceLeDiff, Nat.reduceSubDiff, List.reduceReplicate,
    Int.reduceSub, Int.reduceToNat]
  simp only [FB.setBytes, FB.findVtable_mk, FB.offset_mk, FB.place_mk,
    FB.pad_mk, FB.prep_mk, FB.slot_mk, FB.prependVOffset_mk, FB.new_mk,
    FB.prependSOffsetRelative_mk, FB.prependUOffsetRelative_mk, FB.finish_mk,
    FB.startObject_mk, FB.trimTrailingZeros, FB.leBytes2, FB.leBytes4, FB.leBytesInt,
    List.cons_append, List.nil_append, List.length_cons, List.length_nil,
    List.length_replicate, List.reverse_cons, List.reverse_nil,
    List.dropWhile, List.foldl_cons, List.foldl_nil, List.find?_nil,
    List.append_nil, List.set_cons_zero, List.set_cons_succ,
    reduceIte, decide_eq_true_eq, decide_True, decide_False, eq_self_iff_true,
    ne_eq, not_false_eq_true, not_true_eq_false, Int.reduceEq, Int.reduceNe,
    Option.getD_some, Option.getD_none, reduceCtorEq,
    Nat.max_def, Nat.add_zero, Nat.zero_add,
    Nat.reduceAdd, Nat.reduceSub, Nat.reduceMul, Nat.reduceDiv, Nat.reduceMod,
    Nat.reducePow, Nat.reduceLT, Nat.reduceGT, Nat.reduceEqDiff, Nat.reduceBeqDiff,
    Nat.reduceLeDiff, Nat.reduceSubDiff, List.reduceReplicate,
    Int.reduceSub, Int.reduceToNat]
  simp only [tflite.FullyConnectedOptions.GetRootAsFullyConnectedOptions, FB.encodeGetUOffset, FB.byteAt, FB.readLE,
    List.getD_cons_zero, List.getD_cons_succ, List.getD_nil, List.length_cons,
    List.length_nil, Option.map_some', Option.map_none',
    reduceIte, Nat.add_zero, Nat.zero_add,
    Nat.reduceAdd, Nat.reduceSub, Nat.reduceMul, Nat.reduceDiv, Nat.reduceMod,
    Nat.reduceLT, Nat.reduceGT, Nat.reduceEqDiff, Nat.reduceLeDiff]
  simp only [tflite.FullyConnectedOptions.FusedActivationFunction,
    tflite.FullyConnectedOptions.WeightsFormat,
    tflite.FullyConnectedOptions.KeepNumDims,
    tflite.FullyConnectedOptions.AsymmetricQuantizeInputs,
    FB.Table.Offset, FB.Table.GetInt8, FB.Table.GetInt32, FB.Table.GetBool,
    FB.byteAt, FB.readLE, FB.readSOffset, FB.readVOffsetI, FB.toSigned,
    List.getD_cons_zero, List.getD_cons_succ, List.getD_nil,
    ne_eq, not_false_eq_true, not_true_eq_false, decide_not,
    decide_eq_true_eq, decide_True, decide_False, reduceIte,
    Option.some.injEq, Prod.mk.injEq, Option.getD_some, Option.getD_none,
    Nat.add_zero, Nat.zero_add, and_true, true_and,
    Nat.reduceAdd, Nat.reduceSub, Nat.reduceMul, Nat.reduceDiv, Nat.reduceMod,
    Nat.reducePow, Nat.reduceLT, Nat.reduceGT, Nat.reduceEqDiff, Nat.reduceBeqDiff,
    Nat.reduceLeDiff, Nat.reduceSubDiff, reduceCtorEq,
    Int.reduceAdd, Int.reduceSub, Int.reduceMul, Int.reduceNeg, Int.reduceToNat,
    Int.reduceLT, Int.reduceLE, Int.reduceEq, Int.reduceNe, Int.reduceOfNat,
    Int.reducePow, Nat.cast_ofNat, Nat.cast_zero, Nat.cast_one]
  rw [toSigned8_rt a ha1 ha2]
  all_goals first
  | rfl
  | trivial
  | (and_intros <;> first | rfl | trivial)

/-- Round-trip helper for `FullyConnectedOptions`, presence pattern snns. -/
theorem fcoRT_snns
    (a : Int) (ha1 : -128 ≤ a) (ha2 : a < 128) (ha3 : a ≠ 0) :
    (tflite.FullyConnectedOptions.GetRootAsFullyConnectedOptions
        (tflite.encodeFullyConnectedOptions (some a) none none (some true)) 0).map
      (fun t => (t.FusedActivationFunction, t.WeightsFormat, t.KeepNumDims,
        t.AsymmetricQuantizeInputs)) = some (a, 0, false, true) := by
  simp only [tflite.encodeFullyConnectedOptions, tflite.FullyConnectedOptionsStart,
    tflite.FullyConnectedOptionsAddFusedActivationFunction,
    tflite.FullyConnectedOptionsAddWeightsFormat,
    tflite.FullyConnectedOptionsAddKeepNumDims,
    tflite.FullyConnectedOptionsAddAsymmetricQuantizeInputs,
    tflite.FullyConnectedOptionsEnd, FB.Builder.endObject, FB.Builder.writeVtable,
    FB.Builder.prependInt8Slot, FB.Builder.prependBoolSlot]
  rw [if_pos ha3]
  simp only [FB.findVtable_mk, FB.offset_mk, FB.place_mk,
    FB.pad_mk, FB.prep_mk, FB.slot_mk, FB.prependVOffset_mk, FB.new_mk,
    FB.prependSOffsetRelative_mk, FB.prependUOffsetRelative_mk, FB.finish_mk,
    FB.startObject_mk, FB.trimTrailingZeros, FB.leBytes2, FB.leBytes4, FB.leBytesInt,
    List.cons_append, List.nil_append, List.length_cons, List.length_nil,
    List.length_replicate, List.reverse_cons, List.reverse_nil,
    List.dropWhile, List.foldl_cons, List.foldl_nil, List.find?_nil,
    List.append_nil, List.set_cons_zero, List.set_cons_succ,
    reduceIte, decide_eq_true_eq, decide_True, decide_False, eq_self_iff_true,
    ne_eq, not_false_eq_true, not_true_eq_false, Int.reduceEq, Int.reduceNe,
    Option.getD_some, Option.getD_none, reduceCtorEq,
    Nat.max_def, Nat.add_zero, Nat.zero_add,
    Nat.reduceAdd, Nat.reduceSub, Nat.reduceMul, Nat.reduceDiv, Nat.reduceMod,
    Nat.reducePow, Nat.reduceLT, Nat.reduceGT, Nat.reduceEqDiff, Nat.reduceBeqDiff,
    Nat.reduceLeDiff, Nat.reduceSubDiff, List.reduceReplicate,
    Int.reduceSub, Int.reduceToNat]
  simp only [FB.setBytes, FB.findVtable_mk, FB.offset_mk, FB.place_mk,
    FB.pad_mk, FB.prep_mk, FB.slot_mk, FB.prependVOffset_mk, FB.new_mk,
    FB.prependSOffsetRelative_mk, FB.prependUOffsetRelative_mk, FB.finish_mk,
    FB.startObject_mk, FB.trimTrailingZeros, FB.leBytes2, FB.leBytes4, FB.leBytesInt,
    List.cons_append, List.nil_append, List.length_cons, List.length_nil,
    List.length_replicate, List.reverse_cons, List.reverse_nil,
    List.dropWhile, List.foldl_cons, List.foldl_nil, List.find?_nil,
    List.append_nil, List.set_cons_zero, List.set_cons_succ,
    reduceIte, decide_eq_true_eq, decide_True, decide_False, eq_self_iff_true,
    ne_eq, not_false_eq_true, not_true_eq_false, Int.reduceEq, Int.reduceNe,
    Option.getD_some, Option.getD_none, reduceCtorEq,
    Nat.max_def, Nat.add_zero, Nat.zero_add,
    Nat.reduceAdd, Nat.reduceSub, Nat.reduceMul, Nat.reduceDiv, Nat.reduceMod,
    Nat.reducePow, Nat.reduceLT, Nat.reduceGT, Nat.reduceEqDiff, Nat.reduceBeqDiff,
    Nat.reduceLeDiff, Nat.reduceSubDiff, List.reduceReplicate,
    Int.reduceSub, Int.reduceToNat]
  simp only [tflite.FullyConnectedOptions.GetRootAsFullyConnectedOptions, FB.encodeGetUOffset, FB.byteAt, FB.readLE,
    List.getD_cons_zero, List.getD_cons_succ, List.getD_nil, List.length_cons,
    List.length_nil, Option.map_some', Option.map_none',
    reduceIte, Nat.add_zero, Nat.zero_add,
    Nat.reduceAdd, Nat.reduceSub, Nat.reduceMul, Nat.reduceDiv, Nat.reduceMod,
    Nat.reduceLT, Nat.reduceGT, Nat.reduceEqDiff, Nat.reduceLeDiff]
  simp only [tflite.FullyConnectedOptions.FusedActivationFunction,
    tflite.FullyConnectedOptions.WeightsFormat,
    tflite.FullyConnectedOptions.KeepNumDims,
    tflite.FullyConnectedOptions.AsymmetricQuantizeInputs,
    FB.Table.Offset, FB.Table.GetInt8, FB.Table.GetInt32, FB.Table.GetBool,
    FB.byteAt, FB.readLE, FB.readSOffset, FB.readVOffsetI, FB.toSigned,
    List.getD_cons_zero, List.getD_cons_succ, List.getD_nil,
    ne_eq, not_false_eq_true, not_true_eq_false, decide_not,
    decide_eq_true_eq, decide_True, decide_False, reduceIte,
    Option.some.injEq, Prod.mk.injEq, Option.getD_some, Option.getD_none,
    Nat.add_zero, Nat.zero_add, and_true, true_and,
    Nat.reduceAdd, Nat.reduceSub, Nat.reduceMul, Nat.reduceDiv, Nat.reduceMod,
    Nat.reducePow, Nat.reduceLT, Nat.reduceGT, Nat.reduceEqDiff, Nat.reduceBeqDiff,
    Nat.reduceLeDiff, Nat.reduceSubDiff, reduceCtorEq,
    Int.reduceAdd, Int.reduceSub, Int.reduceMul, Int.reduceNeg, Int.reduceToNat,
    Int.reduceLT, Int.reduceLE, Int.reduceEq, Int.reduceNe, Int.reduceOfNat,
    Int.reducePow, Nat.cast_ofNat, Nat.cast_zero, Nat.cast_one]
  rw [toSigned8_rt a ha1 ha2]
  all_goals first
  | rfl
  | trivial
  | (and_intros <;> first | rfl | trivial)

/-- Round-trip helper for `FullyConnectedOptions`, presence pattern snsn. -/
theorem fcoRT_snsn
    (a : Int) (ha1 : -128 ≤ a) (ha2 : a < 128) (ha3 : a ≠ 0) :
    (tflite.FullyConnectedOptions.GetRootAsFullyConnectedOptions
        (tflite.encodeFullyConnectedOptions (some a) none (some true) none) 0).map
      (fun t => (t.FusedActivationFunction, t.WeightsFormat, t.KeepNumDims,
        t.AsymmetricQuantizeInputs)) = some (a, 0, true, false) := by
  simp only [tflite.encodeFullyConnectedOptions, tflite.FullyConnectedOptionsStart,
    tflite.FullyConnectedOptionsAddFusedActivationFunction,
    tflite.FullyConnectedOptionsAddWeightsFormat,
    tflite.FullyConnectedOptionsAddKeepNumDims,
    tflite.FullyConnectedOptionsAddAsymmetricQuantizeInputs,
    tflite.FullyConnectedOptionsEnd, FB.Builder.endObject, FB.Builder.writeVtable,
    FB.Builder.prependInt8Slot, FB.Builder.prependBoolSlot]
  rw [if_pos ha3]
  simp only [FB.findVtable_mk, FB.offset_mk, FB.place_mk,
    FB.pad_mk, FB.prep_mk, FB.slot_mk, FB.prependVOffset_mk, FB.new_mk,
    FB.prependSOffsetRelative_mk, FB.prependUOffsetRelative_mk, FB.finish_mk,
    FB.startObject_mk, FB.trimTrailingZeros, FB.leBytes2, FB.leBytes4, FB.leBytesInt,
    List.cons_append, List.nil_append, List.length_cons, List.length_nil,
    List.length_replicate, List.reverse_cons, List.reverse_nil,
    List.dropWhile, List.foldl_cons, List.foldl_nil, List.find?_nil,
    List.append_nil, List.set_cons_zero, List.set_cons_succ,
    reduceIte, decide_eq_true_eq, decide_True, decide_False, eq_self_iff_true,
    ne_eq, not_false_eq_true, not_true_eq_false, Int.reduceEq, Int.reduceNe,
    Option.getD_some, Option.getD_none, reduceCtorEq,
    Nat.max_def, Nat.add_zero, Nat.zero_add,
    Nat.reduceAdd, Nat.reduceSub, Nat.reduceMul, Nat.reduceDiv, Nat.reduceMod,
    Nat.reducePow, Nat.reduceLT, Nat.reduceGT, Nat.reduceEqDiff, Nat.reduceBeqDiff,
    Nat.reduceLeDiff, Nat.reduceSubDiff, List.reduceReplicate,
    Int.reduceSub, Int.reduceToNat]
  simp only [FB.setBytes, FB.findVtable_mk, FB.offset_mk, FB.place_mk,
    FB.pad_mk, FB.prep_mk, FB.slot_mk, FB.prependVOffset_mk, FB.new_mk,
    FB.prependSOffsetRelative_mk, FB.prependUOffsetRelative_mk, FB.finish_mk,
    FB.startObject_mk, FB.trimTrailingZeros, FB.leBytes2, FB.leBytes4, FB.leBytesInt,
    List.cons_append, List.nil_append, List.length_cons, List.length_nil,
    List.length_replicate, List.reverse_cons, List.reverse_nil,
    List.dropWhile, List.foldl_cons, List.foldl_nil, List.find?_nil,
    List.append_nil, List.set_cons_zero, List.set_cons_succ,
    reduceIte, decide_eq_true_eq, decide_True, decide_False, eq_self_iff_true,
    ne_eq, not_false_eq_true, not_true_eq_false, Int.reduceEq, Int.reduceNe,
    Option.getD_some, Option.getD_none, reduceCtorEq,
    Nat.max_def, Nat.add_zero, Nat.zero_add,
    Nat.reduceAdd, Nat.reduceSub, Nat.reduceMul, Nat.reduceDiv, Nat.reduceMod,
    Nat.reducePow, Nat.reduceLT, Nat.reduceGT, Nat.reduceEqDiff, Nat.reduceBeqDiff,
    Nat.reduceLeDiff, Nat.reduceSubDiff, List.reduceReplicate,
    Int.reduceSub, Int.reduceToNat]
  simp only [tflite.FullyConnectedOptions.GetRootAsFullyConnectedOptions, FB.encodeGetUOffset, FB.byteAt, FB.readLE,
    List.getD_cons_zero, List.getD_cons_succ, List.getD_nil, List.length_cons,
    List.length_nil, Option.map_some', Option.map_none',
    reduceIte, Nat.add_zero, Nat.zero_add,
    Nat.reduceAdd, Nat.reduceSub, Nat.reduceMul, Nat.reduceDiv, Nat.reduceMod,
    Nat.reduceLT, Nat.reduceGT, Nat.reduceEqDiff, Nat.reduceLeDiff]
  simp only [tflite.FullyConnectedOptions.FusedActivationFunction,
    tflite.FullyConnectedOptions.WeightsFormat,
    tflite.FullyConnectedOptions.KeepNumDims,
    tflite.FullyConnectedOptions.AsymmetricQuantizeInputs,
    FB.Table.Offset, FB.Table.GetInt8, FB.Table.GetInt32, FB.Table.GetBool,
    FB.byteAt, FB.readLE, FB.readSOffset, FB.readVOffsetI, FB.toSigned,
    List.getD_cons_zero, List.getD_cons_succ, List.getD_nil,
    ne_eq, not_false_eq_true, not_true_eq_false, decide_not,
    decide_eq_true_eq, decide_True, decide_False, reduceIte,
    Option.some.injEq, Prod.mk.injEq, Option.getD_some, Option.getD_none,
    Nat.add_zero, Nat.zero_add, and_true, true_and,
    Nat.reduceAdd, Nat.reduceSub, Nat.reduceMul, Nat.reduceDiv, Nat.reduceMod,
    Nat.reducePow, Nat.reduceLT, Nat.reduceGT, Nat.reduceEqDiff, Nat.reduceBeqDiff,
    Nat.reduceLeDiff, Nat.reduceSubDiff, reduceCtorEq,
    Int.reduceAdd, Int.reduceSub, Int.reduceMul, Int.reduceNeg, Int.reduceToNat,
    Int.reduceLT, Int.reduceLE, Int.reduceEq, Int.reduceNe, Int.reduceOfNat,
    Int.reducePow, Nat.cast_ofNat, Nat.cast_zero, Nat.cast_one]
  rw [toSigned8_rt a ha1 ha2]
  all_goals first
  | rfl
  | trivial
  | (and_intros <;> first | rfl | trivial)

/-- Round-trip helper for `FullyConnectedOptions`, presence pattern snss. -/
theorem fcoRT_snss
    (a : Int) (ha1 : -128 ≤ a) (ha2 : a < 128) (ha3 : a ≠ 0) :
    (tflite.FullyConnectedOptions.GetRootAsFullyConnectedOptions
        (tflite.encodeFullyConnectedOptions (some a) none (some true) (some true)) 0).map
      (fun t => (t.FusedActivationFunction, t.WeightsFormat, t.KeepNumDims,
        t.AsymmetricQuantizeInputs)) = some (a, 0, true, true) := by
  simp only [tflite.encodeFullyConnectedOptions, tflite.FullyConnectedOptionsStart,
    tflite.FullyConnectedOptionsAddFusedActivationFunction,
    tflite.FullyConnectedOptionsAddWeightsFormat,
    tflite.FullyConnectedOptionsAddKeepNumDims,
    tflite.FullyConnectedOptionsAddAsymmetricQuantizeInputs,
    tflite.FullyConnectedOptionsEnd, FB.Builder.endObject, FB.Builder.writeVtable,
    FB.Builder.prependInt8Slot, FB.Builder.prependBoolSlot]
  rw [if_pos ha3]
  simp only [FB.findVtable_mk, FB.offset_mk, FB.place_mk,
    FB.pad_mk, FB.prep_mk, FB.slot_mk, FB.prependVOffset_mk, FB.new_mk,
    FB.prependSOffsetRelative_mk, FB.prependUOffsetRelative_mk, FB.finish_mk,
    FB.startObject_mk, FB.trimTrailingZeros, FB.leBytes2, FB.leBytes4, FB.leBytesInt,
    List.cons_append, List.nil_append, List.length_cons, List.length_nil,
    List.length_replicate, List.reverse_cons, List.reverse_nil,
    List.dropWhile, List.foldl_cons, List.foldl_nil, List.find?_nil,
    List.append_nil, List.set_cons_zero, List.set_cons_succ,
    reduceIte, decide_eq_true_eq, decide_True, decide_False, eq_self_iff_true,
    ne_eq, not_false_eq_true, not_true_eq_false, Int.reduceEq, Int.reduceNe,
    Option.getD_some, Option.getD_none, reduceCtorEq,
    Nat.max_def, Nat.add_zero, Nat.zero_add,
    Nat.reduceAdd, Nat.reduceSub, Nat.reduceMul, Nat.reduceDiv, Nat.reduceMod,
    Nat.reducePow, Nat.reduceLT, Nat.reduceGT, Nat.reduceEqDiff, Nat.reduceBeqDiff,
    Nat.reduceLeDiff, Nat.reduceSubDiff, List.reduceReplicate,
    Int.reduceSub, Int.reduceToNat]
  simp only [FB.setBytes, FB.findVtable_mk, FB.offset_mk, FB.place_mk,
    FB.pad_mk, FB.prep_mk, FB.slot_mk, FB.prependVOffset_mk, FB.new_mk,
    FB.prependSOffsetRelative_mk, FB.prependUOffsetRelative_mk, FB.finish_mk,
    FB.startObject_mk, FB.trimTrailingZeros, FB.leBytes2, FB.leBytes4, FB.leBytesInt,
    List.cons_append, List.nil_append, List.length_cons, List.length_nil,
    List.length_replicate, List.reverse_cons, List.reverse_nil,
    List.dropWhile, List.foldl_cons, List.foldl_nil, List.find?_nil,
    List.append_nil, List.set_cons_zero, List.set_cons_succ,
    reduceIte, decide_eq_true_eq, decide_True, decide_False, eq_self_iff_true,
    ne_eq, not_false_eq_true, not_true_eq_false, Int.reduceEq, Int.reduceNe,
    Option.getD_some, Option.getD_none, reduceCtorEq,
    Nat.max_def, Nat.add_zero, Nat.zero_add,
    Nat.reduceAdd, Nat.reduceSub, Nat.reduceMul, Nat.reduceDiv, Nat.reduceMod,
    Nat.reducePow, Nat.reduceLT, Nat.reduceGT, Nat.reduceEqDiff, Nat.reduceBeqDiff,
    Nat.reduceLeDiff, Nat.reduceSubDiff, List.reduceReplicate,
    Int.reduceSub, Int.reduceToNat]
  simp only [tflite.FullyConnectedOptions.GetRootAsFullyConnectedOptions, FB.encodeGetUOffset, FB.byteAt, FB.readLE,
    List.getD_cons_zero, List.getD_cons_succ, List.getD_nil, List.length_cons,
    List.length_nil, Option.map_some', Option.map_none',
    reduceIte, Nat.add_zero, Nat.zero_add,
    Nat.reduceAdd, Nat.reduceSub, Nat.reduceMul, Nat.reduceDiv, Nat.reduceMod,
    Nat.reduceLT, Nat.reduceGT, Nat.reduceEqDiff, Nat.reduceLeDiff]
  simp only [tflite.FullyConnectedOptions.FusedActivationFunction,
    tflite.FullyConnectedOptions.WeightsFormat,
    tflite.FullyConnectedOptions.KeepNumDims,
    tflite.FullyConnectedOptions.AsymmetricQuantizeInputs,
    FB.Table.Offset, FB.Table.GetInt8, FB.Table.GetInt32, FB.Table.GetBool,
    FB.byteAt, FB.readLE, FB.readSOffset, FB.readVOffsetI, FB.toSigned,
    List.getD_cons_zero, List.getD_cons_succ, List.getD_nil,
    ne_eq, not_false_eq_true, not_true_eq_false, decide_not,
    decide_eq_true_eq, decide_True, decide_False, reduceIte,
    Option.some.injEq, Prod.mk.injEq, Option.getD_some, Option.getD_none,
    Nat.add_zero, Nat.zero_add, and_true, true_and,
    Nat.reduceAdd, Nat.reduceSub, Nat.reduceMul, Nat.reduceDiv, Nat.reduceMod,
    Nat.reducePow, Nat.reduceLT, Nat.reduceGT, Nat.reduceEqDiff, Nat.reduceBeqDiff,
    Nat.reduceLeDiff, Nat.reduceSubDiff, reduceCtorEq,
    Int.reduceAdd, Int.reduceSub, Int.reduceMul, Int.reduceNeg, Int.reduceToNat,
    Int.reduceLT, Int.reduceLE, Int.reduceEq, Int.reduceNe, Int.reduceOfNat,
    Int.reducePow, Nat.cast_ofNat, Nat.cast_zero, Nat.cast_one]
  rw [toSigned8_rt a ha1 ha2]
  all_goals first
  | rfl
  | trivial
  | (and_intros <;> first | rfl | trivial)

/-- Round-trip helper for `FullyConnectedOptions`, presence pattern ssnn. -/
theorem fcoRT_ssnn
    (a : Int) (ha1 : -128 ≤ a) (ha2 : a < 128) (ha3 : a ≠ 0) (b : Int) (hb1 : -128 ≤ b) (hb2 : b < 128) (hb3 : b ≠ 0) :
    (tflite.FullyConnectedOptions.GetRootAsFullyConnectedOptions
        (tflite.encodeFullyConnectedOptions (some a) (some b) none none) 0).map
      (fun t => (t.FusedActivationFunction, t.WeightsFormat, t.KeepNumDims,
        t.AsymmetricQuantizeInputs)) = some (a, b, false, false) := by
  simp only [tflite.encodeFullyConnectedOptions, tflite.FullyConnectedOptionsStart,
    tflite.FullyConnectedOptionsAddFusedActivationFunction,
    tflite.FullyConnectedOptionsAddWeightsFormat,
    tflite.FullyConnectedOptionsAddKeepNumDims,
    tflite.FullyConnectedOptionsAddAsymmetricQuantizeInputs,
    tflite.FullyConnectedOptionsEnd, FB.Builder.endObject, FB.Builder.writeVtable,
    FB.Builder.prependInt8Slot, FB.Builder.prependBoolSlot]
  rw [if_pos ha3, if_pos hb3]
  simp only [FB.findVtable_mk, FB.offset_mk, FB.place_mk,
    FB.pad_mk, FB.prep_mk, FB.slot_mk, FB.prependVOffset_mk, FB.new_mk,
    FB.prependSOffsetRelative_mk, FB.prependUOffsetRelative_mk, FB.finish_mk,
    FB.startObject_mk, FB.trimTrailingZeros, FB.leBytes2, FB.leBytes4, FB.leBytesInt,
    List.cons_append, List.nil_append, List.length_cons, List.length_nil,
    List.length_replicate, List.reverse_cons, List.reverse_nil,
    List.dropWhile, List.foldl_cons, List.foldl_nil, List.find?_nil,
    List.append_nil, List.set_cons_zero, List.set_cons_succ,
    reduceIte, decide_eq_true_eq, decide_True, decide_False, eq_self_iff_true,
    ne_eq, not_false_eq_true, not_true_eq_false, Int.reduceEq, Int.reduceNe,
    Option.getD_some, Option.getD_none, reduceCtorEq,
    Nat.max_def, Nat.add_zero, Nat.zero_add,
    Nat.reduceAdd, Nat.reduceSub, Nat.reduceMul, Nat.reduceDiv, Nat.reduceMod,
    Nat.reducePow, Nat.reduceLT, Nat.reduceGT, Nat.reduceEqDiff, Nat.reduceBeqDiff,
    Nat.reduceLeDiff, Nat.reduceSubDiff, List.reduceReplicate,
    Int.reduceSub, Int.reduceToNat]
  simp only [FB.setBytes, FB.findVtable_mk, FB.offset_mk, FB.place_mk,
    FB.pad_mk, FB.prep_mk, FB.slot_mk, FB.prependVOffset_mk, FB.new_mk,
    FB.prependSOffsetRelative_mk, FB.prependUOffsetRelative_mk, FB.finish_mk,
    FB.startObject_mk, FB.trimTrailingZeros, FB.leBytes2, FB.leBytes4, FB.leBytesInt,
    List.cons_append, List.nil_append, List.length_cons, List.length_nil,
    List.length_replicate, List.reverse_cons, List.reverse_nil,
    List.dropWhile, List.foldl_cons, List.foldl_nil, List.find?_nil,
    List.append_nil, List.set_cons_zero, List.set_cons_succ,
    reduceIte, decide_eq_true_eq, decide_True, decide_False, eq_self_iff_true,
    ne_eq, not_false_eq_true, not_true_eq_false, Int.reduceEq, Int.reduceNe,
    Option.getD_some, Option.getD_none, reduceCtorEq,
    Nat.max_def, Nat.add_zero, Nat.zero_add,
    Nat.reduceAdd, Nat.reduceSub, Nat.reduceMul, Nat.reduceDiv, Nat.reduceMod,
    Nat.reducePow, Nat.reduceLT, Nat.reduceGT, Nat.reduceEqDiff, Nat.reduceBeqDiff,
    Nat.reduceLeDiff, Nat.reduceSubDiff, List.reduceReplicate,
    Int.reduceSub, Int.reduceToNat]
  simp only [tflite.FullyConnectedOptions.GetRootAsFullyConnectedOptions, FB.encodeGetUOffset, FB.byteAt, FB.readLE,
    List.getD_cons_zero, List.getD_cons_succ, List.getD_nil, List.length_cons,
    List.length_nil, Option.map_some', Option.map_none',
    reduceIte, Nat.add_zero, Nat.zero_add,
    Nat.reduceAdd, Nat.reduceSub, Nat.reduceMul, Nat.reduceDiv, Nat.reduceMod,
    Nat.reduceLT, Nat.reduceGT, Nat.reduceEqDiff, Nat.reduceLeDiff]
  simp only [tflite.FullyConnectedOptions.FusedActivationFunction,
    tflite.FullyConnectedOptions.WeightsFormat,
    tflite.FullyConnectedOptions.KeepNumDims,
    tflite.FullyConnectedOptions.AsymmetricQuantizeInputs,
    FB.Table.Offset, FB.Table.GetInt8, FB.Table.GetInt32, FB.Table.GetBool,
    FB.byteAt, FB.readLE, FB.readSOffset, FB.readVOffsetI, FB.toSigned,
    List.getD_cons_zero, List.getD_cons_succ, List.getD_nil,
    ne_eq, not_false_eq_true, not_true_eq_false, decide_not,
    decide_eq_true_eq, decide_True, decide_False, reduceIte,
    Option.some.injEq, Prod.mk.injEq, Option.getD_some, Option.getD_none,
    Nat.add_zero, Nat.zero_add, and_true, true_and,
    Nat.reduceAdd, Nat.reduceSub, Nat.reduceMul, Nat.reduceDiv, Nat.reduceMod,
    Nat.reducePow, Nat.reduceLT, Nat.reduceGT, Nat.reduceEqDiff, Nat.reduceBeqDiff,
    Nat.reduceLeDiff, Nat.reduceSubDiff, reduceCtorEq,
    Int.reduceAdd, Int.reduceSub, Int.reduceMul, Int.reduceNeg, Int.reduceToNat,
    Int.reduceLT, Int.reduceLE, Int.reduceEq, Int.reduceNe, Int.reduceOfNat,
    Int.reducePow, Nat.cast_ofNat, Nat.cast_zero, Nat.cast_one]
  rw [toSigned8_rt a ha1 ha2, toSigned8_rt b hb1 hb2]
  all_goals first
  | rfl
  | trivial
  | (and_intros <;> first | rfl | trivial)

/-- Round-trip helper for `FullyConnectedOptions`, presence pattern ssns. -/
theorem fcoRT_ssns
    (a : Int) (ha1 : -128 ≤ a) (ha2 : a < 128) (ha3 : a ≠ 0) (b : Int) (hb1 : -128 ≤ b) (hb2 : b < 128) (hb3 : b ≠ 0) :
    (tflite.FullyConnectedOptions.GetRootAsFullyConnectedOptions
        (tflite.encodeFullyConnectedOptions (some a) (some b) none (some true)) 0).map
      (fun t => (t.FusedActivationFunction, t.WeightsFormat, t.KeepNumDims,
        t.AsymmetricQuantizeInputs)) = some (a, b, false, true) := by
  simp only [tflite.encodeFullyConnectedOptions, tflite.FullyConnectedOptionsStart,
    tflite.FullyConnectedOptionsAddFusedActivationFunction,
    tflite.FullyConnectedOptionsAddWeightsFormat,
    tflite.FullyConnectedOptionsAddKeepNumDims,
    tflite.FullyConnectedOptionsAddAsymmetricQuantizeInputs,
    tflite.FullyConnectedOptionsEnd, FB.Builder.endObject, FB.Builder.writeVtable,
    FB.Builder.prependInt8Slot, FB.Builder.prependBoolSlot]
  rw [if_pos ha3, if_pos hb3]
  simp only [FB.findVtable_mk, FB.offset_mk, FB.place_mk,
    FB.pad_mk, FB.prep_mk, FB.slot_mk, FB.prependVOffset_mk, FB.new_mk,
    FB.prependSOffsetRelative_mk, FB.prependUOffsetRelative_mk, FB.finish_mk,
    FB.startObject_mk, FB.trimTrailingZeros, FB.leBytes2, FB.leBytes4, FB.leBytesInt,
    List.cons_append, List.nil_append, List.length_cons, List.length_nil,
    List.length_replicate, List.reverse_cons, List.reverse_nil,
    List.dropWhile, List.foldl_cons, List.foldl_nil, List.find?_nil,
    List.append_nil, List.set_cons_zero, List.set_cons_succ,
    reduceIte, decide_eq_true_eq, decide_True, decide_False, eq_self_iff_true,
    ne_eq, not_false_eq_true, not_true_eq_false, Int.reduceEq, Int.reduceNe,
    Option.getD_some, Option.getD_none, reduceCtorEq,
    Nat.max_def, Nat.add_zero, Nat.zero_add,
    Nat.reduceAdd, Nat.reduceSub, Nat.reduceMul, Nat.reduceDiv, Nat.reduceMod,
    Nat.reducePow, Nat.reduceLT, Nat.reduceGT, Nat.reduceEqDiff, Nat.reduceBeqDiff,
    Nat.reduceLeDiff, Nat.reduceSubDiff, List.reduceReplicate,
    Int.reduceSub, Int.reduceToNat]
  simp only [FB.setBytes, FB.findVtable_mk, FB.offset_mk, FB.place_mk,
    FB.pad_mk, FB.prep_mk, FB.slot_mk, FB.prependVOffset_mk, FB.new_mk,
    FB.prependSOffsetRelative_mk, FB.prependUOffsetRelative_mk, FB.finish_mk,
    FB.startObject_mk, FB.trimTrailingZeros, FB.leBytes2, FB.leBytes4, FB.leBytesInt,
    List.cons_append, List.nil_append, List.length_cons, List.length_nil,
    List.length_replicate, List.reverse_cons, List.reverse_nil,
    List.dropWhile, List.foldl_cons, List.foldl_nil, List.find?_nil,
    List.append_nil, List.set_cons_zero, List.set_cons_succ,
    reduceIte, decide_eq_true_eq, decide_True, decide_False, eq_self_iff_true,
    ne_eq, not_false_eq_true, not_true_eq_false, Int.reduceEq, Int.reduceNe,
    Option.getD_some, Option.getD_none, reduceCtorEq,
    Nat.max_def, Nat.add_zero, Nat.zero_add,
    Nat.reduceAdd, Nat.reduceSub, Nat.reduceMul, Nat.reduceDiv, Nat.reduceMod,
    Nat.reducePow, Nat.reduceLT, Nat.reduceGT, Nat.reduceEqDiff, Nat.reduceBeqDiff,
    Nat.reduceLeDiff, Nat.reduceSubDiff, List.reduceReplicate,
    Int.reduceSub, Int.reduceToNat]
  simp only [tflite.FullyConnectedOptions.GetRootAsFullyConnectedOptions, FB.encodeGetUOffset, FB.byteAt, FB.readLE,
    List.getD_cons_zero, List.getD_cons_succ, List.getD_nil, List.length_cons,
    List.length_nil, Option.map_some', Option.map_none',
    reduceIte, Nat.add_zero, Nat.zero_add,
    Nat.reduceAdd, Nat.reduceSub, Nat.reduceMul, Nat.reduceDiv, Nat.reduceMod,
    Nat.reduceLT, Nat.reduceGT, Nat.reduceEqDiff, Nat.reduceLeDiff]
  simp only [tflite.FullyConnectedOptions.FusedActivationFunction,
    tflite.FullyConnectedOptions.WeightsFormat,
    tflite.FullyConnectedOptions.KeepNumDims,
    tflite.FullyConnectedOptions.AsymmetricQuantizeInputs,
    FB.Table.Offset, FB.Table.GetInt8, FB.Table.GetInt32, FB.Table.GetBool,
    FB.byteAt, FB.readLE, FB.readSOffset, FB.readVOffsetI, FB.toSigned,
    List.getD_cons_zero, List.getD_cons_succ, List.getD_nil,
    ne_eq, not_false_eq_true, not_true_eq_false, decide_not,
    decide_eq_true_eq, decide_True, decide_False, reduceIte,
    Option.some.injEq, Prod.mk.injEq, Option.getD_some, Option.getD_none,
    Nat.add_zero, Nat.zero_add, and_true, true_and,
    Nat.reduceAdd, Nat.reduceSub, Nat.reduceMul, Nat.reduceDiv, Nat.reduceMod,
    Nat.reducePow, Nat.reduceLT, Nat.reduceGT, Nat.reduceEqDiff, Nat.reduceBeqDiff,
    Nat.reduceLeDiff, Nat.reduceSubDiff, reduceCtorEq,
    Int.reduceAdd, Int.reduceSub, Int.reduceMul, Int.reduceNeg, Int.reduceToNat,
    Int.reduceLT, Int.reduceLE, Int.reduceEq, Int.reduceNe, Int.reduceOfNat,
    Int.reducePow, Nat.cast_ofNat, Nat.cast_zero, Nat.cast_one]
  rw [toSigned8_rt a ha1 ha2, toSigned8_rt b hb1 hb2]
  all_goals first
  | rfl
  | trivial
  | (and_intros <;> first | rfl | trivial)

/-- Round-trip helper for `FullyConnectedOptions`, presence pattern sssn. -/
theorem fcoRT_sssn
    (a : Int) (ha1 : -128 ≤ a) (ha2 : a < 128) (ha3 : a ≠ 0) (b : Int) (hb1 : -128 ≤ b) (hb2 : b < 128) (hb3 : b ≠ 0) :
    (tflite.FullyConnectedOptions.GetRootAsFullyConnectedOptions
        (tflite.encodeFullyConnectedOptions (some a) (some b) (some true) none) 0).map
      (fun t => (t.FusedActivationFunction, t.WeightsFormat, t.KeepNumDims,
        t.AsymmetricQuantizeInputs)) = some (a, b, true, false) := by
  simp only [tflite.encodeFullyConnectedOptions, tflite.FullyConnectedOptionsStart,
    tflite.FullyConnectedOptionsAddFusedActivationFunction,
    tflite.FullyConnectedOptionsAddWeightsFormat,
    tflite.FullyConnectedOptionsAddKeepNumDims,
    tflite.FullyConnectedOptionsAddAsymmetricQuantizeInputs,
    tflite.FullyConnectedOptionsEnd, FB.Builder.endObject, FB.Builder.writeVtable,
    FB.Builder.prependInt8Slot, FB.Builder.prependBoolSlot]
  rw [if_pos ha3, if_pos hb3]
  simp only [FB.findVtable_mk, FB.offset_mk, FB.place_mk,
    FB.pad_mk, FB.prep_mk, FB.slot_mk, FB.prependVOffset_mk, FB.new_mk,
    FB.prependSOffsetRelative_mk, FB.prependUOffsetRelative_mk, FB.finish_mk,
    FB.startObject_mk, FB.trimTrailingZeros, FB.leBytes2, FB.leBytes4, FB.leBytesInt,
    List.cons_append, List.nil_append, List.length_cons, List.length_nil,
    List.length_replicate, List.reverse_cons, List.reverse_nil,
    List.dropWhile, List.foldl_cons, List.foldl_nil, List.find?_nil,
    List.append_nil, List.set_cons_zero, List.set_cons_succ,
    reduceIte, decide_eq_true_eq, decide_True, decide_False, eq_self_iff_true,
    ne_eq, not_false_eq_true, not_true_eq_false, Int.reduceEq, Int.reduceNe,
    Option.getD_some, Option.getD_none, reduceCtorEq,
    Nat.max_def, Nat.add_zero, Nat.zero_add,
    Nat.reduceAdd, Nat.reduceSub, Nat.reduceMul, Nat.reduceDiv, Nat.reduceMod,
    Nat.reducePow, Nat.reduceLT, Nat.reduceGT, Nat.reduceEqDiff, Nat.reduceBeqDiff,
    Nat.reduceLeDiff, Nat.reduceSubDiff, List.reduceReplicate,
    Int.reduceSub, Int.reduceToNat]
  simp only [FB.setBytes, FB.findVtable_mk, FB.offset_mk, FB.place_mk,
    FB.pad_mk, FB.prep_mk, FB.slot_mk, FB.prependVOffset_mk, FB.new_mk,
    FB.prependSOffsetRelative_mk, FB.prependUOffsetRelative_mk, FB.finish_mk,
    FB.startObject_mk, FB.trimTrailingZeros, FB.leBytes2, FB.leBytes4, FB.leBytesInt,
    List.cons_append, List.nil_append, List.length_cons, List.length_nil,
    List.length_replicate, List.reverse_cons, List.reverse_nil,
    List.dropWhile, List.foldl_cons, List.foldl_nil, List.find?_nil,
    List.append_nil, List.set_cons_zero, List.set_cons_succ,
    reduceIte, decide_eq_true_eq, decide_True, decide_False, eq_self_iff_true,
    ne_eq, not_false_eq_true, not_true_eq_false, Int.reduceEq, Int.reduceNe,
    Option.getD_some, Option.getD_none, reduceCtorEq,
    Nat.max_def, Nat.add_zero, Nat.zero_add,
    Nat.reduceAdd, Nat.reduceSub, Nat.reduceMul, Nat.reduceDiv, Nat.reduceMod,
    Nat.reducePow, Nat.reduceLT, Nat.reduceGT, Nat.reduceEqDiff, Nat.reduceBeqDiff,
    Nat.reduceLeDiff, Nat.reduceSubDiff, List.reduceReplicate,
    Int.reduceSub, Int.reduceToNat]
  simp only [tflite.FullyConnectedOptions.GetRootAsFullyConnectedOptions, FB.encodeGetUOffset, FB.byteAt, FB.readLE,
    List.getD_cons_zero, List.getD_cons_succ, List.getD_nil, List.length_cons,
    List.length_nil, Option.map_some', Option.map_none',
    reduceIte, Nat.add_zero, Nat.zero_add,
    Nat.reduceAdd, Nat.reduceSub, Nat.reduceMul, Nat.reduceDiv, Nat.reduceMod,
    Nat.reduceLT, Nat.reduceGT, Nat.reduceEqDiff, Nat.reduceLeDiff]
  simp only [tflite.FullyConnectedOptions.FusedActivationFunction,
    tflite.FullyConnectedOptions.WeightsFormat,
    tflite.FullyConnectedOptions.KeepNumDims,
    tflite.FullyConnectedOptions.AsymmetricQuantizeInputs,
    FB.Table.Offset, FB.Table.GetInt8, FB.Table.GetInt32, FB.Table.GetBool,
    FB.byteAt, FB.readLE, FB.readSOffset, FB.readVOffsetI, FB.toSigned,
    List.getD_cons_zero, List.getD_cons_succ, List.getD_nil,
    ne_eq, not_false_eq_true, not_true_eq_false, decide_not,
    decide_eq_true_eq, decide_True, decide_False, reduceIte,
    Option.some.injEq, Prod.mk.injEq, Option.getD_some, Option.getD_none,
    Nat.add_zero, Nat.zero_add, and_true, true_and,
    Nat.reduceAdd, Nat.reduceSub, Nat.reduceMul, Nat.reduceDiv, Nat.reduceMod,
    Nat.reducePow, Nat.reduceLT, Nat.reduceGT, Nat.reduceEqDiff, Nat.reduceBeqDiff,
    Nat.reduceLeDiff, Nat.reduceSubDiff, reduceCtorEq,
    Int.reduceAdd, Int.reduceSub, Int.reduceMul, Int.reduceNeg, Int.reduceToNat,
    Int.reduceLT, Int.reduceLE, Int.reduceEq, Int.reduceNe, Int.reduceOfNat,
    Int.reducePow, Nat.cast_ofNat, Nat.cast_zero, Nat.cast_one]
  rw [toSigned8_rt a ha1 ha2, toSigned8_rt b hb1 hb2]
  all_goals first
  | rfl
  | trivial
  | (and_intros <;> first | rfl | trivial)

/-- Round-trip helper for `FullyConnectedOptions`, presence pattern ssss. -/
theorem fcoRT_ssss
    (a : Int) (ha1 : -128 ≤ a) (ha2 : a < 128) (ha3 : a ≠ 0) (b : Int) (hb1 : -128 ≤ b) (hb2 : b < 128) (hb3 : b ≠ 0) :
    (tflite.FullyConnectedOptions.GetRootAsFullyConnectedOptions
        (tflite.encodeFullyConnectedOptions (some a) (some b) (some true) (some true)) 0).map
      (fun t => (t.FusedActivationFunction, t.WeightsFormat, t.KeepNumDims,
        t.AsymmetricQuantizeInputs)) = some (a, b, true, true) := by
  simp only [tflite.encodeFullyConnectedOptions, tflite.FullyConnectedOptionsStart,
    tflite.FullyConnectedOptionsAddFusedActivationFunction,
    tflite.FullyConnectedOptionsAddWeightsFormat,
    tflite.FullyConnectedOptionsAddKeepNumDims,
    tflite.FullyConnectedOptionsAddAsymmetricQuantizeInputs,
    tflite.FullyConnectedOptionsEnd, FB.Builder.endObject, FB.Builder.writeVtable,
    FB.Builder.prependInt8Slot, FB.Builder.prependBoolSlot]
  rw [if_pos ha3, if_pos hb3]
  simp only [FB.findVtable_mk, FB.offset_mk, FB.place_mk,
    FB.pad_mk, FB.prep_mk, FB.slot_mk, FB.prependVOffset_mk, FB.new_mk,
    FB.prependSOffsetRelative_mk, FB.prependUOffsetRelative_mk, FB.finish_mk,
    FB.startObject_mk, FB.trimTrailingZeros, FB.leBytes2, FB.leBytes4, FB.leBytesInt,
    List.cons_append, List.nil_append, List.length_cons, List.length_nil,
    List.length_replicate, List.reverse_cons, List.reverse_nil,
    List.dropWhile, List.foldl_cons, List.foldl_nil, List.find?_nil,
    List.append_nil, List.set_cons_zero, List.set_cons_succ,
    reduceIte, decide_eq_true_eq, decide_True, decide_False, eq_self_iff_true,
    ne_eq, not_false_eq_true, not_true_eq_false, Int.reduceEq, Int.reduceNe,
    Option.getD_some, Option.getD_none, reduceCtorEq,
    Nat.max_def, Nat.add_zero, Nat.zero_add,
    Nat.reduceAdd, Nat.reduceSub, Nat.reduceMul, Nat.reduceDiv, Nat.reduceMod,
    Nat.reducePow, Nat.reduceLT, Nat.reduceGT, Nat.reduceEqDiff, Nat.reduceBeqDiff,
    Nat.reduceLeDiff, Nat.reduceSubDiff, List.reduceReplicate,
    Int.reduceSub, Int.reduceToNat]
  simp only [FB.setBytes, FB.findVtable_mk, FB.offset_mk, FB.place_mk,
    FB.pad_mk, FB.prep_mk, FB.slot_mk, FB.prependVOffset_mk, FB.new_mk,
    FB.prependSOffsetRelative_mk, FB.prependUOffsetRelative_mk, FB.finish_mk,
    FB.startObject_mk, FB.trimTrailingZeros, FB.leBytes2, FB.leBytes4, FB.leBytesInt,
    List.cons_append, List.nil_append, List.length_cons, List.length_nil,
    List.length_replicate, List.reverse_cons, List.reverse_nil,
    List.dropWhile, List.foldl_cons, List.foldl_nil, List.find?_nil,
    List.append_nil, List.set_cons_zero, List.set_cons_succ,
    reduceIte, decide_eq_true_eq, decide_True, decide_False, eq_self_iff_true,
    ne_eq, not_false_eq_true, not_true_eq_false, Int.reduceEq, Int.reduceNe,
    Option.getD_some, Option.getD_none, reduceCtorEq,
    Nat.max_def, Nat.add_zero, Nat.zero_add,
    Nat.reduceAdd, Nat.reduceSub, Nat.reduceMul, Nat.reduceDiv, Nat.reduceMod,
    Nat.reducePow, Nat.reduceLT, Nat.reduceGT, Nat.reduceEqDiff, Nat.reduceBeqDiff,
    Nat.reduceLeDiff, Nat.reduceSubDiff, List.reduceReplicate,
    Int.reduceSub, Int.reduceToNat]
  simp only [tflite.FullyConnectedOptions.GetRootAsFullyConnectedOptions, FB.encodeGetUOffset, FB.byteAt, FB.readLE,
    List.getD_cons_zero, List.getD_cons_succ, List.getD_nil, List.length_cons,
    List.length_nil, Option.map_some', Option.map_none',
    reduceIte, Nat.add_zero, Nat.zero_add,
    Nat.reduceAdd, Nat.reduceSub, Nat.reduceMul, Nat.reduceDiv, Nat.reduceMod,
    Nat.reduceLT, Nat.reduceGT, Nat.reduceEqDiff, Nat.reduceLeDiff]
  simp only [tflite.FullyConnectedOptions.FusedActivationFunction,
    tflite.FullyConnectedOptions.WeightsFormat,
    tflite.FullyConnectedOptions.KeepNumDims,
    tflite.FullyConnectedOptions.AsymmetricQuantizeInputs,
    FB.Table.Offset, FB.Table.GetInt8, FB.Table.GetInt32, FB.Table.GetBool,
    FB.byteAt, FB.readLE, FB.readSOffset, FB.readVOffsetI, FB.toSigned,
    List.getD_cons_zero, List.getD_cons_succ, List.getD_nil,
    ne_eq, not_false_eq_true, not_true_eq_false, decide_not,
    decide_eq_true_eq, decide_True, decide_False, reduceIte,
    Option.some.injEq, Prod.mk.injEq, Option.getD_some, Option.getD_none,
    Nat.add_zero, Nat.zero_add, and_true, true_and,
    Nat.reduceAdd, Nat.reduceSub, Nat.reduceMul, Nat.reduceDiv, Nat.reduceMod,
    Nat.reducePow, Nat.reduceLT, Nat.reduceGT, Nat.reduceEqDiff, Nat.reduceBeqDiff,
    Nat.reduceLeDiff, Nat.reduceSubDiff, reduceCtorEq,
    Int.reduceAdd, Int.reduceSub, Int.reduceMul, Int.reduceNeg, Int.reduceToNat,
    Int.reduceLT, Int.reduceLE, Int.reduceEq, Int.reduceNe, Int.reduceOfNat,
    Int.reducePow, Nat.cast_ofNat, Nat.cast_zero, Nat.cast_one]
  rw [toSigned8_rt a ha1 ha2, toSigned8_rt b hb1 hb2]
  all_goals first
  | rfl
  | trivial
  | (and_intros <;> first | rfl | trivial)

/-!
The claims.
-/

/-- C2: A generated field getter consults the vtable through `Table.Offset`
at the field's vtable byte offset; if the stored offset is 0 it returns the
schema-declared default, and its result then does not depend on the buffer at
all; otherwise it returns the typed value read at `tablePos + storedOffset`.
Shown for `FullyConnectedOptions.FusedActivationFunction` (int8, vtable byte
offset 4, default 0) and `BCQGatherOptions.Axis` (int32, vtable byte offset
6, default 0). -/
theorem claim_C2_getter_offset_semantics : ∀ (buf : List Nat) (pos : Nat),
    (tflite.FullyConnectedOptions.FusedActivationFunction ⟨⟨buf, pos⟩⟩ =
      if FB.Table.Offset ⟨buf, pos⟩ 4 ≠ 0 then
        FB.Table.GetInt8 ⟨buf, pos⟩ (FB.Table.Offset ⟨buf, pos⟩ 4 + pos)
      else 0)
    ∧ (tflite.BCQGatherOptions.Axis ⟨⟨buf, pos⟩⟩ =
      if FB.Table.Offset ⟨buf, pos⟩ 6 ≠ 0 then
        FB.Table.GetInt32 ⟨buf, pos⟩ (FB.Table.Offset ⟨buf, pos⟩ 6 + pos)
      else 0)
    ∧ (∀ (buf2 : List Nat) (pos2 : Nat),
        FB.Table.Offset ⟨buf, pos⟩ 4 = 0 → FB.Table.Offset ⟨buf2, pos2⟩ 4 = 0 →
        tflite.FullyConnectedOptions.FusedActivationFunction ⟨⟨buf, pos⟩⟩ =
          tflite.FullyConnectedOptions.FusedActivationFunction ⟨⟨buf2, pos2⟩⟩)
    ∧ (∀ (buf2 : List Nat) (pos2 : Nat),
        FB.Table.Offset ⟨buf, pos⟩ 6 = 0 → FB.Table.Offset ⟨buf2, pos2⟩ 6 = 0 →
        tflite.BCQGatherOptions.Axis ⟨⟨buf, pos⟩⟩ =
          tflite.BCQGatherOptions.Axis ⟨⟨buf2, pos2⟩⟩) := by
  intro buf pos
  refine ⟨rfl, rfl, ?_, ?_⟩ <;> intro buf2 pos2 h1 h2 <;>
    simp [tflite.FullyConnectedOptions.FusedActivationFunction,
      tflite.BCQGatherOptions.Axis, h1, h2]

/-- Witness for C2 at concrete inputs: both table views have stored offset 0
for the field, and the getter results coincide (both defaults). -/
theorem claim_C2_getter_offset_semantics_witness :
    FB.Table.Offset ⟨[], 0⟩ 4 = 0 ∧ FB.Table.Offset ⟨[1, 2], 7⟩ 4 = 0 ∧
      tflite.FullyConnectedOptions.FusedActivationFunction ⟨⟨[], 0⟩⟩ =
        tflite.FullyConnectedOptions.FusedActivationFunction ⟨⟨[1, 2], 7⟩⟩ :=
  ⟨by decide, by decide,
    (claim_C2_getter_offset_semantics [] 0).2.2.1 [1, 2] 7 (by decide) (by decide)⟩

/-- C3 counterexample: `GetRootAsMulOptions` on the buffer `[100, 0, 0, 0]`
succeeds and returns a table view positioned at 100, which lies outside the
4-byte buffer — the claimed validation that the resulting table position
lands within the buffer's bounds does not happen. -/
theorem claim_C3_counterexample :
    tflite.MulOptions.GetRootAsMulOptions [100, 0, 0, 0] 0 =
      some ⟨⟨[100, 0, 0, 0], 100⟩⟩ ∧
    List.length [100, 0, 0, 0] ≤ 100 := by
  decide

/-- C3 amended: `GetRootAs...` reads a 4-byte uoffset at the given byte
offset — failing only when those four bytes do not fit in the buffer — and
returns a lazy table view carrying the buffer and the absolute position
`offset + uoffset`; the resulting table position itself is not validated
against the buffer bounds, and no field is decoded eagerly.  Shown for
`MulOptions` and `FullyConnectedOptions`. -/
theorem claim_C3_getroot_amended : ∀ (buf : List Nat) (offset : Nat),
    (offset + 4 ≤ buf.length →
      tflite.MulOptions.GetRootAsMulOptions buf offset =
        some ⟨⟨buf, FB.readLE buf offset 4 + offset⟩⟩ ∧
      tflite.FullyConnectedOptions.GetRootAsFullyConnectedOptions buf offset =
        some ⟨⟨buf, FB.readLE buf offset 4 + offset⟩⟩)
    ∧ (buf.length < offset + 4 →
      tflite.MulOptions.GetRootAsMulOptions buf offset = none ∧
      tflite.FullyConnectedOptions.GetRootAsFullyConnectedOptions buf offset = none) := by
  intro buf offset
  constructor
  · intro h
    simp [tflite.MulOptions.GetRootAsMulOptions,
      tflite.FullyConnectedOptions.GetRootAsFullyConnectedOptions,
      FB.encodeGetUOffset, h]
  · intro h
    have h4 : ¬ (offset + 4 ≤ buf.length) := by omega
    simp [tflite.MulOptions.GetRootAsMulOptions,
      tflite.FullyConnectedOptions.GetRootAsFullyConnectedOptions,
      FB.encodeGetUOffset, h4]

/-- Witness for the amended C3 at a concrete buffer: the uoffset 4 is read
at offset 0 and the view is positioned at 4. -/
theorem claim_C3_getroot_amended_witness :
    (0 : Nat) + 4 ≤ List.length [4, 0, 0, 0, 8, 0, 0, 0] ∧
      tflite.MulOptions.GetRootAsMulOptions [4, 0, 0, 0, 8, 0, 0, 0] 0 =
        some ⟨⟨[4, 0, 0, 0, 8, 0, 0, 0], 4⟩⟩ :=
  ⟨by decide, ((claim_C3_getroot_amended [4, 0, 0, 0, 8, 0, 0, 0] 0).1 (by decide)).1⟩

/-- C6: Adding a field with its schema-declared default (here
`MulOptionsAddFusedActivationFunction(builder, 0)`, default 0) leaves the
builder unchanged, so the finished buffer is byte-identical to one where the
field was never added; at `EndObject()` the vtable of that buffer is
metadata-only (its size field is 4: zero field slots), and the getter reads
back the default. -/
theorem claim_C6_default_omission :
    (∀ b : FB.Builder, tflite.MulOptionsAddFusedActivationFunction b 0 = b)
    ∧ tflite.encodeMulOptions (some 0) = tflite.encodeMulOptions none
    ∧ (let buf := tflite.encodeMulOptions (some 0)
       let tpos := FB.readLE buf 0 4
       FB.readVOffsetI buf ((tpos : Int) - FB.readSOffset buf tpos) = 4)
    ∧ (tflite.MulOptions.GetRootAsMulOptions (tflite.encodeMulOptions (some 0)) 0).map
        tflite.MulOptions.FusedActivationFunction = some 0 := by
  refine ⟨fun b => ?_, rfl, by decide, by decide⟩
  unfold tflite.MulOptionsAddFusedActivationFunction FB.Builder.prependInt8Slot
  simp

/-- C7: The boolean getters read a single byte: when the field is present
(stored offset nonzero) the getter returns false exactly when that byte is 0
and true for every nonzero byte; on the encode side `PrependBoolSlot` either
writes nothing (value equal to the default) or emits exactly one byte, which
is always 0 or 1.  Shown for `FullyConnectedOptions.KeepNumDims` and
`ResizeBilinearOptions.AlignCorners` (both at vtable byte offset 8). -/
theorem claim_C7_bool_byte_semantics :
    (∀ (buf : List Nat) (pos : Nat),
      (FB.Table.Offset ⟨buf, pos⟩ 8 ≠ 0 →
        (tflite.FullyConnectedOptions.KeepNumDims ⟨⟨buf, pos⟩⟩ = false ↔
          FB.byteAt buf (FB.Table.Offset ⟨buf, pos⟩ 8 + pos) = 0)) ∧
      (FB.Table.Offset ⟨buf, pos⟩ 8 ≠ 0 →
        (tflite.ResizeBilinearOptions.AlignCorners ⟨⟨buf, pos⟩⟩ = false ↔
          FB.byteAt buf (FB.Table.Offset ⟨buf, pos⟩ 8 + pos) = 0)))
    ∧ (∀ (b : FB.Builder) (i : Nat) (x : Bool),
      (b.prependBoolSlot i x 0).data = b.data ∨
        (b.prependBoolSlot i x 0).data = (if x then 1 else 0) :: b.data)
    ∧ (∀ x : Bool, (if x then (1 : Nat) else 0) = 0 ∨ (if x then (1 : Nat) else 0) = 1) := by
  refine ⟨fun buf pos => ⟨fun h => ?_, fun h => ?_⟩, fun b i x => ?_, fun x => ?_⟩
  · simp [tflite.FullyConnectedOptions.KeepNumDims, FB.Table.GetBool, h]
  · simp [tflite.ResizeBilinearOptions.AlignCorners, FB.Table.GetBool, h]
  · cases x
    · exact Or.inl (by simp [FB.Builder.prependBoolSlot])
    · exact Or.inr (by
        simp [FB.Builder.prependBoolSlot, FB.Builder.prep, FB.Builder.pad,
          FB.Builder.place, FB.Builder.slot, FB.Builder.offset, Nat.mod_one])
  · cases x <;> simp

/-- Witness for C7 at a concrete buffer whose vtable stores offset 7 for the
byte-offset-8 slot and whose field byte is 1. -/
theorem claim_C7_bool_byte_semantics_witness :
    FB.Table.Offset ⟨[12, 0, 8, 0, 0, 0, 0, 0, 7, 0, 0, 0, 12, 0, 0, 0, 0, 0, 0, 1], 12⟩ 8 ≠ 0 ∧
      (tflite.FullyConnectedOptions.KeepNumDims
          ⟨⟨[12, 0, 8, 0, 0, 0, 0, 0, 7, 0, 0, 0, 12, 0, 0, 0, 0, 0, 0, 1], 12⟩⟩ = false ↔
        FB.byteAt [12, 0, 8, 0, 0, 0, 0, 0, 7, 0, 0, 0, 12, 0, 0, 0, 0, 0, 0, 1]
          (FB.Table.Offset ⟨[12, 0, 8, 0, 0, 0, 0, 0, 7, 0, 0, 0, 12, 0, 0, 0, 0, 0, 0, 1], 12⟩ 8 + 12) = 0) :=
  ⟨by decide,
    (claim_C7_bool_byte_semantics.1
      [12, 0, 8, 0, 0, 0, 0, 0, 7, 0, 0, 0, 12, 0, 0, 0, 0, 0, 0, 1] 12).1 (by decide)⟩

/-- C8: Reader operations are pure functions of the pair (buffer, position):
`GetRootAs...` returns a view carrying the input buffer unchanged (no copy,
no mutation), and two views over equal buffers at equal positions give equal
getter results.  Shown for `SubOptions` and `BCQGatherOptions`. -/
theorem claim_C8_reader_purity :
    (∀ (buf : List Nat) (offset : Nat) (t : tflite.SubOptions),
      tflite.SubOptions.GetRootAsSubOptions buf offset = some t → t._tab.bytes = buf)
    ∧ (∀ (buf : List Nat) (offset : Nat) (t : tflite.BCQGatherOptions),
      tflite.BCQGatherOptions.GetRootAsBCQGatherOptions buf offset = some t →
        t._tab.bytes = buf)
    ∧ (∀ t u : tflite.BCQGatherOptions, t._tab = u._tab →
      t.InputHiddenSize = u.InputHiddenSize ∧ t.Axis = u.Axis)
    ∧ (∀ t u : tflite.SubOptions, t._tab = u._tab →
      t.FusedActivationFunction = u.FusedActivationFunction) := by
  refine ⟨?_, ?_, ?_, ?_⟩
  · intro buf offset t h
    simp only [tflite.SubOptions.GetRootAsSubOptions, FB.encodeGetUOffset] at h
    by_cases hle : offset + 4 ≤ buf.length
    · simp [hle] at h
      rw [← h]
    · simp [hle] at h
  · intro buf offset t h
    simp only [tflite.BCQGatherOptions.GetRootAsBCQGatherOptions, FB.encodeGetUOffset] at h
    by_cases hle : offset + 4 ≤ buf.length
    · simp [hle] at h
      rw [← h]
    · simp [hle] at h
  · intro t u h
    constructor <;>
      simp [tflite.BCQGatherOptions.InputHiddenSize, tflite.BCQGatherOptions.Axis, h]
  · intro t u h
    simp [tflite.SubOptions.FusedActivationFunction, h]

/-- Witness for C8 at a concrete buffer: the returned view carries the same
buffer. -/
theorem claim_C8_reader_purity_witness :
    tflite.SubOptions.GetRootAsSubOptions [4, 0, 0, 0, 9] 0 =
      some ⟨⟨[4, 0, 0, 0, 9], 4⟩⟩ ∧
    (⟨⟨[4, 0, 0, 0, 9], 4⟩⟩ : tflite.SubOptions)._tab.bytes = [4, 0, 0, 0, 9] :=
  ⟨by decide, claim_C8_reader_purity.1 [4, 0, 0, 0, 9] 0 ⟨⟨[4, 0, 0, 0, 9], 4⟩⟩ (by decide)⟩

/-- C9: The generated `MulOptions` and `SubOptions` bindings are
extensionally equal: decoding any buffer at any offset gives the same
`FusedActivationFunction` result through either class, and the builder
sequences (Start with 1 slot, PrependInt8Slot(0, v, 0), End, Finish) produce
byte-identical buffers for every input, whether or not the Add call was
made. -/
theorem claim_C9_mul_sub_equivalence :
    (∀ (buf : List Nat) (offset : Nat),
      (tflite.MulOptions.GetRootAsMulOptions buf offset).map
        tflite.MulOptions.FusedActivationFunction =
      (tflite.SubOptions.GetRootAsSubOptions buf offset).map
        tflite.SubOptions.FusedActivationFunction)
    ∧ (∀ v : Option Int, tflite.encodeMulOptions v = tflite.encodeSubOptions v) := by
  constructor
  · intro buf offset
    unfold tflite.MulOptions.GetRootAsMulOptions tflite.SubOptions.GetRootAsSubOptions
    cases FB.encodeGetUOffset buf offset <;> rfl
  · intro v
    rfl

/-- C1: Round-trip through the generated builders and accessors.  For
`BCQGatherOptions` and `FullyConnectedOptions`: encode via
Start/Add.../End/Finish (a `some` argument means the Add function was called
with that value; admissibility restricts to in-range non-default values,
`none` means not called) and decode via `GetRootAs...`; every field added
with a non-default value reads back as the supplied value, and every field
not added reads back as the schema-declared default (0 for integers, false
for booleans). -/
theorem claim_C1_roundtrip :
    (∀ hs ax : Option Int, addedInt32OK hs = true → addedInt32OK ax = true →
      (tflite.BCQGatherOptions.GetRootAsBCQGatherOptions
          (tflite.encodeBCQGatherOptions hs ax) 0).map
        (fun t => (t.InputHiddenSize, t.Axis)) = some (hs.getD 0, ax.getD 0))
    ∧ (∀ fa wf : Option Int, ∀ kd aq : Option Bool,
      addedInt8OK fa = true → addedInt8OK wf = true →
      addedBoolOK kd = true → addedBoolOK aq = true →
      (tflite.FullyConnectedOptions.GetRootAsFullyConnectedOptions
          (tflite.encodeFullyConnectedOptions fa wf kd aq) 0).map
        (fun t => (t.FusedActivationFunction, t.WeightsFormat, t.KeepNumDims,
          t.AsymmetricQuantizeInputs))
        = some (fa.getD 0, wf.getD 0, kd.getD false, aq.getD false)) := by
  constructor
  · intro hs ax h1 h2
    rcases hs with _ | h
    · rcases ax with _ | a2
      · exact bcqRT_nn
      · obtain ⟨x1, x2, x3⟩ := addedInt32OK_elim h2
        exact bcqRT_ns a2 x1 x2 x3
    · obtain ⟨x1, x2, x3⟩ := addedInt32OK_elim h1
      rcases ax with _ | a2
      · exact bcqRT_sn h x1 x2 x3
      · obtain ⟨y1, y2, y3⟩ := addedInt32OK_elim h2
        exact bcqRT_ss h x1 x2 x3 a2 y1 y2 y3
  · intro fa wf kd aq h1 h2 h3 h4
    have hkd : kd = none ∨ kd = some true := by
      rcases kd with _ | c
      · exact Or.inl rfl
      · exact Or.inr (by rw [addedBoolOK_elim h3])
    have haq : aq = none ∨ aq = some true := by
      rcases aq with _ | d
      · exact Or.inl rfl
      · exact Or.inr (by rw [addedBoolOK_elim h4])
    rcases fa with _ | a <;> rcases wf with _ | b <;>
      rcases hkd with rfl | rfl <;> rcases haq with rfl | rfl
    · exact fcoRT_nnnn
    · exact fcoRT_nnns
    · exact fcoRT_nnsn
    · exact fcoRT_nnss
    · obtain ⟨x1, x2, x3⟩ := addedInt8OK_elim h2
      exact fcoRT_nsnn b x1 x2 x3
    · obtain ⟨x1, x2, x3⟩ := addedInt8OK_elim h2
      exact fcoRT_nsns b x1 x2 x3
    · obtain ⟨x1, x2, x3⟩ := addedInt8OK_elim h2
      exact fcoRT_nssn b x1 x2 x3
    · obtain ⟨x1, x2, x3⟩ := addedInt8OK_elim h2
      exact fcoRT_nsss b x1 x2 x3
    · obtain ⟨x1, x2, x3⟩ := addedInt8OK_elim h1
      exact fcoRT_snnn a x1 x2 x3
    · obtain ⟨x1, x2, x3⟩ := addedInt8OK_elim h1
      exact fcoRT_snns a x1 x2 x3
    · obtain ⟨x1, x2, x3⟩ := addedInt8OK_elim h1
      exact fcoRT_snsn a x1 x2 x3
    · obtain ⟨x1, x2, x3⟩ := addedInt8OK_elim h1
      exact fcoRT_snss a x1 x2 x3
    · obtain ⟨x1, x2, x3⟩ := addedInt8OK_elim h1
      obtain ⟨y1, y2, y3⟩ := addedInt8OK_elim h2
      exact fcoRT_ssnn a x1 x2 x3 b y1 y2 y3
    · obtain ⟨x1, x2, x3⟩ := addedInt8OK_elim h1
      obtain ⟨y1, y2, y3⟩ := addedInt8OK_elim h2
      exact fcoRT_ssns a x1 x2 x3 b y1 y2 y3
    · obtain ⟨x1, x2, x3⟩ := addedInt8OK_elim h1
      obtain ⟨y1, y2, y3⟩ := addedInt8OK_elim h2
      exact fcoRT_sssn a x1 x2 x3 b y1 y2 y3
    · obtain ⟨x1, x2, x3⟩ := addedInt8OK_elim h1
      obtain ⟨y1, y2, y3⟩ := addedInt8OK_elim h2
      exact fcoRT_ssss a x1 x2 x3 b y1 y2 y3

/-- Witness for C1 at concrete values: BCQGatherOptions with
inputHiddenSize 7 and axis -9, FullyConnectedOptions with
fusedActivationFunction 5 and keepNumDims true, the other fields not
added. -/
theorem claim_C1_roundtrip_witness :
    (addedInt32OK (some 7) = true ∧ addedInt32OK (some (-9)) = true ∧
      (tflite.BCQGatherOptions.GetRootAsBCQGatherOptions
          (tflite.encodeBCQGatherOptions (some 7) (some (-9))) 0).map
        (fun t => (t.InputHiddenSize, t.Axis)) = some (7, -9))
    ∧ (addedInt8OK (some 5) = true ∧ addedBoolOK (some true) = true ∧
      (tflite.FullyConnectedOptions.GetRootAsFullyConnectedOptions
          (tflite.encodeFullyConnectedOptions (some 5) none (some true) none) 0).map
        (fun t => (t.FusedActivationFunction, t.WeightsFormat, t.KeepNumDims,
          t.AsymmetricQuantizeInputs)) = some (5, 0, true, false)) :=
  ⟨⟨by decide, by decide,
    claim_C1_roundtrip.1 (some 7) (some (-9)) (by decide) (by decide)⟩,
   ⟨by decide, by decide,
    claim_C1_roundtrip.2 (some 5) none (some true) none
      (by decide) (by decide) (by decide) (by decide)⟩⟩

/-- C4: Schema-evolution compatibility.  A buffer encoded by the 1-slot
`MulOptions` builder (slot 0, int8, same type and meaning as slot 0 of
`FullyConnectedOptions`) decodes without error through the 4-slot
`FullyConnectedOptions` accessor: the shared slot returns the encoded value
and the three extra fields return their schema-declared defaults. -/
theorem claim_C4_forward_compat : ∀ v : Int, addedInt8OK (some v) = true →
    (tflite.FullyConnectedOptions.GetRootAsFullyConnectedOptions
        (tflite.encodeMulOptions (some v)) 0).map
      (fun t => (t.FusedActivationFunction, t.WeightsFormat, t.KeepNumDims,
        t.AsymmetricQuantizeInputs)) = some (v, 0, false, false) := by
  intro v hv
  obtain ⟨x1, x2, x3⟩ := addedInt8OK_elim hv
  simp only [tflite.encodeMulOptions, tflite.MulOptionsStart,
    tflite.MulOptionsAddFusedActivationFunction, tflite.MulOptionsEnd,
    FB.Builder.endObject, FB.Builder.writeVtable, FB.Builder.prependInt8Slot]
  rw [if_pos x3]
  simp only [FB.findVtable_mk, FB.offset_mk, FB.place_mk,
    FB.pad_mk, FB.prep_mk, FB.slot_mk, FB.prependVOffset_mk, FB.new_mk,
    FB.prependSOffsetRelative_mk, FB.prependUOffsetRelative_mk, FB.finish_mk,
    FB.startObject_mk, FB.trimTrailingZeros, FB.leBytes2, FB.leBytes4, FB.leBytesInt,
    List.cons_append, List.nil_append, List.length_cons, List.length_nil,
    List.length_replicate, List.reverse_cons, List.reverse_nil,
    List.dropWhile, List.foldl_cons, List.foldl_nil, List.find?_nil,
    List.append_nil, List.set_cons_zero, List.set_cons_succ,
    reduceIte, decide_eq_true_eq, decide_True, decide_False, eq_self_iff_true,
    ne_eq, not_false_eq_true, not_true_eq_false, Int.reduceEq, Int.reduceNe,
    Option.getD_some, Option.getD_none, reduceCtorEq,
    Nat.max_def, Nat.add_zero, Nat.zero_add,
    Nat.reduceAdd, Nat.reduceSub, Nat.reduceMul, Nat.reduceDiv, Nat.reduceMod,
    Nat.reducePow, Nat.reduceLT, Nat.reduceGT, Nat.reduceEqDiff, Nat.reduceBeqDiff,
    Nat.reduceLeDiff, Nat.reduceSubDiff, List.reduceReplicate,
    Int.reduceSub, Int.reduceToNat]
  simp only [FB.setBytes,
    FB.findVtable_mk, FB.offset_mk, FB.place_mk,
    FB.pad_mk, FB.prep_mk, FB.slot_mk, FB.prependVOffset_mk, FB.new_mk,
    FB.prependSOffsetRelative_mk, FB.prependUOffsetRelative_mk, FB.finish_mk,
    FB.startObject_mk, FB.trimTrailingZeros, FB.leBytes2, FB.leBytes4, FB.leBytesInt,
    List.cons_append, List.nil_append, List.length_cons, List.length_nil,
    List.length_replicate, List.reverse_cons, List.reverse_nil,
    List.dropWhile, List.foldl_cons, List.foldl_nil, List.find?_nil,
    List.append_nil, List.set_cons_zero, List.set_cons_succ,
    reduceIte, decide_eq_true_eq, decide_True, decide_False, eq_self_iff_true,
    ne_eq, not_false_eq_true, not_true_eq_false, Int.reduceEq, Int.reduceNe,
    Option.getD_some, Option.getD_none, reduceCtorEq,
    Nat.max_def, Nat.add_zero, Nat.zero_add,
    Nat.reduceAdd, Nat.reduceSub, Nat.reduceMul, Nat.reduceDiv, Nat.reduceMod,
    Nat.reducePow, Nat.reduceLT, Nat.reduceGT, Nat.reduceEqDiff, Nat.reduceBeqDiff,
    Nat.reduceLeDiff, Nat.reduceSubDiff, List.reduceReplicate,
    Int.reduceSub, Int.reduceToNat]
  simp only [tflite.FullyConnectedOptions.GetRootAsFullyConnectedOptions,
    FB.encodeGetUOffset, FB.byteAt, FB.readLE,
    List.getD_cons_zero, List.getD_cons_succ, List.getD_nil, List.length_cons,
    List.length_nil, Option.map_some', Option.map_none',
    reduceIte, Nat.add_zero, Nat.zero_add,
    Nat.reduceAdd, Nat.reduceSub, Nat.reduceMul, Nat.reduceDiv, Nat.reduceMod,
    Nat.reduceLT, Nat.reduceGT, Nat.reduceEqDiff, Nat.reduceLeDiff]
  simp only [tflite.FullyConnectedOptions.FusedActivationFunction,
    tflite.FullyConnectedOptions.WeightsFormat,
    tflite.FullyConnectedOptions.KeepNumDims,
    tflite.FullyConnectedOptions.AsymmetricQuantizeInputs,
    FB.Table.Offset, FB.Table.GetInt8, FB.Table.GetInt32, FB.Table.GetBool,
    FB.byteAt, FB.readLE, FB.readSOffset, FB.readVOffsetI, FB.toSigned,
    List.getD_cons_zero, List.getD_cons_succ, List.getD_nil,
    ne_eq, not_false_eq_true, not_true_eq_false, decide_not,
    decide_eq_true_eq, decide_True, decide_False, reduceIte,
    Option.some.injEq, Prod.mk.injEq, Option.getD_some, Option.getD_none,
    Nat.add_zero, Nat.zero_add, and_true, true_and,
    Nat.reduceAdd, Nat.reduceSub, Nat.reduceMul, Nat.reduceDiv, Nat.reduceMod,
    Nat.reducePow, Nat.reduceLT, Nat.reduceGT, Nat.reduceEqDiff, Nat.reduceBeqDiff,
    Nat.reduceLeDiff, Nat.reduceSubDiff, reduceCtorEq,
    Int.reduceAdd, Int.reduceSub, Int.reduceMul, Int.reduceNeg, Int.reduceToNat,
    Int.reduceLT, Int.reduceLE, Int.reduceEq, Int.reduceNe, Int.reduceOfNat,
    Int.reducePow, Nat.cast_ofNat, Nat.cast_zero, Nat.cast_one]
  rw [toSigned8_rt v x1 x2]
  all_goals first
  | rfl
  | trivial
  | (and_intros <;> first | rfl | trivial)

/-- Witness for C4 at the concrete value 3. -/
theorem claim_C4_forward_compat_witness :
    addedInt8OK (some 3) = true ∧
      (tflite.FullyConnectedOptions.GetRootAsFullyConnectedOptions
          (tflite.encodeMulOptions (some 3)) 0).map
        (fun t => (t.FusedActivationFunction, t.WeightsFormat, t.KeepNumDims,
          t.AsymmetricQuantizeInputs)) = some (3, 0, false, false) :=
  ⟨by decide, claim_C4_forward_compat 3 (by decide)⟩

/-- Shape of the finished `FullyConnectedOptions` buffer with all four fields
added (non-default): root uoffset 16, vtable `[12, 0, 8, 0, 7, 0, 6, 0, 5, 0,
4, 0]` at position 4, table at position 16 with soffset 12 and the four field
bytes. -/
theorem encodeFullyConnectedOptions_all_shape (a b : Int) (ha : a ≠ 0) (hb : b ≠ 0) :
    tflite.encodeFullyConnectedOptions (some a) (some b) (some true) (some true) =
      [16, 0, 0, 0, 12, 0, 8, 0, 7, 0, 6, 0, 5, 0, 4, 0, 12, 0, 0, 0,
       1, 1, (b % 256).toNat, (a % 256).toNat] := by
  simp only [tflite.encodeFullyConnectedOptions, tflite.FullyConnectedOptionsStart,
    tflite.FullyConnectedOptionsAddFusedActivationFunction,
    tflite.FullyConnectedOptionsAddWeightsFormat,
    tflite.FullyConnectedOptionsAddKeepNumDims,
    tflite.FullyConnectedOptionsAddAsymmetricQuantizeInputs,
    tflite.FullyConnectedOptionsEnd, FB.Builder.endObject, FB.Builder.writeVtable,
    FB.Builder.prependInt8Slot, FB.Builder.prependBoolSlot]
  rw [if_pos ha, if_pos hb]
  simp only [FB.findVtable_mk, FB.offset_mk, FB.place_mk,
    FB.pad_mk, FB.prep_mk, FB.slot_mk, FB.prependVOffset_mk, FB.new_mk,
    FB.prependSOffsetRelative_mk, FB.prependUOffsetRelative_mk, FB.finish_mk,
    FB.startObject_mk, FB.trimTrailingZeros, FB.leBytes2, FB.leBytes4, FB.leBytesInt,
    List.cons_append, List.nil_append, List.length_cons, List.length_nil,
    List.length_replicate, List.reverse_cons, List.reverse_nil,
    List.dropWhile, List.foldl_cons, List.foldl_nil, List.find?_nil,
    List.append_nil, List.set_cons_zero, List.set_cons_succ,
    reduceIte, decide_eq_true_eq, decide_True, decide_False, eq_self_iff_true,
    ne_eq, not_false_eq_true, not_true_eq_false, Int.reduceEq, Int.reduceNe,
    Option.getD_some, Option.getD_none, reduceCtorEq,
    Nat.max_def, Nat.add_zero, Nat.zero_add,
    Nat.reduceAdd, Nat.reduceSub, Nat.reduceMul, Nat.reduceDiv, Nat.reduceMod,
    Nat.reducePow, Nat.reduceLT, Nat.reduceGT, Nat.reduceEqDiff, Nat.reduceBeqDiff,
    Nat.reduceLeDiff, Nat.reduceSubDiff, List.reduceReplicate,
    Int.reduceSub, Int.reduceToNat]
  try simp only [FB.setBytes, FB.offset_mk, FB.place_mk, FB.pad_mk, FB.prep_mk,
    List.cons_append, List.nil_append, List.length_cons, List.length_nil,
    Nat.reduceAdd, Nat.reduceSub, Nat.reduceMul, Nat.reduceDiv, Nat.reduceMod,
    reduceIte]

/-- Shape of the finished `ResizeBilinearOptions` buffer with `alignCorners`
true: the 3-slot vtable `[10, 0, 8, 0, 0, 0, 0, 0, 7, 0]` sits at position 6
and stores slot 2's field offset 7 at vtable byte offset 8. -/
theorem encodeResizeBilinearOptions_true_shape :
    tflite.encodeResizeBilinearOptions (some true) =
      [16, 0, 0, 0, 0, 0, 10, 0, 8, 0, 0, 0, 0, 0, 7, 0, 10, 0, 0, 0, 0, 0, 0, 1] := by
  simp only [tflite.encodeResizeBilinearOptions, tflite.ResizeBilinearOptionsStart,
    tflite.ResizeBilinearOptionsAddAlignCorners, tflite.ResizeBilinearOptionsEnd,
    FB.Builder.endObject, FB.Builder.writeVtable, FB.Builder.prependBoolSlot]
  simp only [FB.findVtable_mk, FB.offset_mk, FB.place_mk,
    FB.pad_mk, FB.prep_mk, FB.slot_mk, FB.prependVOffset_mk, FB.new_mk,
    FB.prependSOffsetRelative_mk, FB.prependUOffsetRelative_mk, FB.finish_mk,
    FB.startObject_mk, FB.trimTrailingZeros, FB.leBytes2, FB.leBytes4, FB.leBytesInt,
    List.cons_append, List.nil_append, List.length_cons, List.length_nil,
    List.length_replicate, List.reverse_cons, List.reverse_nil,
    List.dropWhile, List.foldl_cons, List.foldl_nil, List.find?_nil,
    List.append_nil, List.set_cons_zero, List.set_cons_succ,
    reduceIte, decide_eq_true_eq, decide_True, decide_False, eq_self_iff_true,
    ne_eq, not_false_eq_true, not_true_eq_false, Int.reduceEq, Int.reduceNe,
    Option.getD_some, Option.getD_none, reduceCtorEq,
    Nat.max_def, Nat.add_zero, Nat.zero_add,
    Nat.reduceAdd, Nat.reduceSub, Nat.reduceMul, Nat.reduceDiv, Nat.reduceMod,
    Nat.reducePow, Nat.reduceLT, Nat.reduceGT, Nat.reduceEqDiff, Nat.reduceBeqDiff,
    Nat.reduceLeDiff, Nat.reduceSubDiff, List.reduceReplicate,
    Int.reduceSub, Int.reduceToNat]
  try simp only [FB.setBytes, FB.offset_mk, FB.place_mk, FB.pad_mk, FB.prep_mk,
    List.cons_append, List.nil_append, List.length_cons, List.length_nil,
    Nat.reduceAdd, Nat.reduceSub, Nat.reduceMul, Nat.reduceDiv, Nat.reduceMod,
    reduceIte]

set_option maxHeartbeats 1600000 in
/-- C5: Builder and reader agree on the vtable layout.  In the buffer built
with all four `FullyConnectedOptions` fields present, the vtable starts with
the vtable-size (4 + 2*4 bytes) and table-size entries, and for every logical
slot i (enumerated: 0, 1, 2, 3) the reader's lookup at vtable byte offset
4 + 2*i (slot 0 -> 4, 1 -> 6, 2 -> 8, 3 -> 10) finds the nonzero field offset
recorded by `Prepend...Slot(i, ...)`; likewise
`ResizeBilinearOptionsAddAlignCorners` records slot 2 of a 3-slot table and
`AlignCorners` finds its field through vtable byte offset 8 = 4 + 2*2. -/
theorem claim_C5_vtable_slot_layout :
    (∀ a b : Int, addedInt8OK (some a) = true → addedInt8OK (some b) = true →
      (let buf := tflite.encodeFullyConnectedOptions (some a) (some b) (some true) (some true)
       let tpos := FB.readLE buf 0 4
       let vt : Int := (tpos : Int) - FB.readSOffset buf tpos
       FB.readVOffsetI buf vt = 4 + 2 * 4 ∧
       FB.readVOffsetI buf (vt + 2) = 8 ∧
       (FB.Table.Offset ⟨buf, tpos⟩ (4 + 2 * 0) =
           FB.readVOffsetI buf (vt + (4 + 2 * 0)) ∧
         FB.readVOffsetI buf (vt + (4 + 2 * 0)) ≠ 0) ∧
       (FB.Table.Offset ⟨buf, tpos⟩ (4 + 2 * 1) =
           FB.readVOffsetI buf (vt + (4 + 2 * 1)) ∧
         FB.readVOffsetI buf (vt + (4 + 2 * 1)) ≠ 0) ∧
       (FB.Table.Offset ⟨buf, tpos⟩ (4 + 2 * 2) =
           FB.readVOffsetI buf (vt + (4 + 2 * 2)) ∧
         FB.readVOffsetI buf (vt + (4 + 2 * 2)) ≠ 0) ∧
       (FB.Table.Offset ⟨buf, tpos⟩ (4 + 2 * 3) =
           FB.readVOffsetI buf (vt + (4 + 2 * 3)) ∧
         FB.readVOffsetI buf (vt + (4 + 2 * 3)) ≠ 0)))
    ∧ (let buf := tflite.encodeResizeBilinearOptions (some true)
       let tpos := FB.readLE buf 0 4
       let vt : Int := (tpos : Int) - FB.readSOffset buf tpos
       FB.readVOffsetI buf vt = 4 + 2 * 3 ∧
       FB.Table.Offset ⟨buf, tpos⟩ (4 + 2 * 2) ≠ 0 ∧
       (tflite.ResizeBilinearOptions.GetRootAsResizeBilinearOptions buf 0).map
         tflite.ResizeBilinearOptions.AlignCorners = some true) := by
  constructor
  · intro a b h1 h2
    obtain ⟨x1, x2, x3⟩ := addedInt8OK_elim h1
    obtain ⟨y1, y2, y3⟩ := addedInt8OK_elim h2
    have henc := encodeFullyConnectedOptions_all_shape a b x3 y3
    simp only [henc]
    refine ⟨?_, ?_, ?_, ?_, ?_, ?_⟩
    all_goals simp only [FB.byteAt, FB.readLE, FB.readSOffset, FB.toSigned,
      List.getD_cons_zero, List.getD_cons_succ, List.getD_nil,
      reduceIte, Nat.add_zero, Nat.zero_add,
      Nat.reduceAdd, Nat.reduceSub, Nat.reduceMul, Nat.reduceDiv, Nat.reduceMod,
      Nat.reducePow, Nat.reduceLT, Nat.reduceGT, Nat.reduceEqDiff, Nat.reduceLeDiff,
      Nat.cast_ofNat, Nat.cast_zero, Nat.cast_one]
    all_goals simp only [FB.readVOffsetI, FB.Table.Offset, FB.readSOffset, FB.byteAt, FB.readLE, FB.toSigned,
      List.getD_cons_zero, List.getD_cons_succ, List.getD_nil,
      reduceIte, ne_eq, not_false_eq_true, decide_eq_true_eq,
      Nat.add_zero, Nat.zero_add, and_true, true_and, and_self,
      Nat.reduceAdd, Nat.reduceSub, Nat.reduceMul, Nat.reduceDiv, Nat.reduceMod,
      Nat.reducePow, Nat.reduceLT, Nat.reduceGT, Nat.reduceEqDiff, Nat.reduceLeDiff,
      Int.reduceAdd, Int.reduceSub, Int.reduceMul, Int.reduceNeg, Int.reduceToNat,
      Int.reduceLT, Int.reduceLE, Int.reduceOfNat, Int.reducePow,
      Nat.cast_ofNat, Nat.cast_zero, Nat.cast_one, reduceCtorEq]
  · rw [encodeResizeBilinearOptions_true_shape]
    refine ⟨?_, ?_, ?_⟩
    · simp only [FB.byteAt, FB.readLE, FB.readSOffset, FB.toSigned,
        List.getD_cons_zero, List.getD_cons_succ, List.getD_nil,
        reduceIte, Nat.add_zero, Nat.zero_add,
        Nat.reduceAdd, Nat.reduceSub, Nat.reduceMul, Nat.reduceDiv, Nat.reduceMod,
        Nat.reducePow, Nat.reduceLT, Nat.reduceGT, Nat.reduceEqDiff, Nat.reduceLeDiff,
        Nat.cast_ofNat, Nat.cast_zero, Nat.cast_one]
      simp only [FB.readVOffsetI, FB.Table.Offset, FB.readSOffset, FB.byteAt, FB.readLE, FB.toSigned,
        List.getD_cons_zero, List.getD_cons_succ, List.getD_nil,
        reduceIte, ne_eq, not_false_eq_true, decide_eq_true_eq,
        Nat.add_zero, Nat.zero_add, and_true, true_and, and_self,
        Nat.reduceAdd, Nat.reduceSub, Nat.reduceMul, Nat.reduceDiv, Nat.reduceMod,
        Nat.reducePow, Nat.reduceLT, Nat.reduceGT, Nat.reduceEqDiff, Nat.reduceLeDiff,
        Int.reduceAdd, Int.reduceSub, Int.reduceMul, Int.reduceNeg, Int.reduceToNat,
        Int.reduceLT, Int.reduceLE, Int.reduceOfNat, Int.reducePow,
        Nat.cast_ofNat, Nat.cast_zero, Nat.cast_one, reduceCtorEq]
    · simp only [FB.byteAt, FB.readLE, FB.readSOffset, FB.toSigned,
        List.getD_cons_zero, List.getD_cons_succ, List.getD_nil,
        reduceIte, Nat.add_zero, Nat.zero_add,
        Nat.reduceAdd, Nat.reduceSub, Nat.reduceMul, Nat.reduceDiv, Nat.reduceMod,
        Nat.reducePow, Nat.reduceLT, Nat.reduceGT, Nat.reduceEqDiff, Nat.reduceLeDiff,
        Nat.cast_ofNat, Nat.cast_zero, Nat.cast_one]
      simp only [FB.readVOffsetI, FB.Table.Offset, FB.readSOffset, FB.byteAt, FB.readLE, FB.toSigned,
        List.getD_cons_zero, List.getD_cons_succ, List.getD_nil,
        reduceIte, ne_eq, not_false_eq_true, decide_eq_true_eq,
        Nat.add_zero, Nat.zero_add, and_true, true_and, and_self,
        Nat.reduceAdd, Nat.reduceSub, Nat.reduceMul, Nat.reduceDiv, Nat.reduceMod,
        Nat.reducePow, Nat.reduceLT, Nat.reduceGT, Nat.reduceEqDiff, Nat.reduceLeDiff,
        Int.reduceAdd, Int.reduceSub, Int.reduceMul, Int.reduceNeg, Int.reduceToNat,
        Int.reduceLT, Int.reduceLE, Int.reduceOfNat, Int.reducePow,
        Nat.cast_ofNat, Nat.cast_zero, Nat.cast_one, reduceCtorEq]
    · simp only [tflite.ResizeBilinearOptions.GetRootAsResizeBilinearOptions,
        FB.encodeGetUOffset, Option.map_some', Option.map_none', List.length_cons,
        List.length_nil, FB.byteAt, FB.readLE, FB.readSOffset, FB.toSigned,
        List.getD_cons_zero, List.getD_cons_succ, List.getD_nil,
        reduceIte, Nat.add_zero, Nat.zero_add,
        Nat.reduceAdd, Nat.reduceSub, Nat.reduceMul, Nat.reduceDiv, Nat.reduceMod,
        Nat.reducePow, Nat.reduceLT, Nat.reduceGT, Nat.reduceEqDiff, Nat.reduceLeDiff,
        Nat.cast_ofNat, Nat.cast_zero, Nat.cast_one]
      simp only [tflite.ResizeBilinearOptions.AlignCorners, FB.Table.GetBool,
        Option.some.injEq, decide_not, FB.readVOffsetI, FB.Table.Offset, FB.readSOffset, FB.byteAt, FB.readLE, FB.toSigned,
        List.getD_cons_zero, List.getD_cons_succ, List.getD_nil,
        reduceIte, ne_eq, not_false_eq_true, decide_eq_true_eq,
        Nat.add_zero, Nat.zero_add, and_true, true_and, and_self,
        Nat.reduceAdd, Nat.reduceSub, Nat.reduceMul, Nat.reduceDiv, Nat.reduceMod,
        Nat.reducePow, Nat.reduceLT, Nat.reduceGT, Nat.reduceEqDiff, Nat.reduceLeDiff,
        Int.reduceAdd, Int.reduceSub, Int.reduceMul, Int.reduceNeg, Int.reduceToNat,
        Int.reduceLT, Int.reduceLE, Int.reduceOfNat, Int.reducePow,
        Nat.cast_ofNat, Nat.cast_zero, Nat.cast_one, reduceCtorEq]

/-- Witness for C5 at concrete values 1 and 2. -/
theorem claim_C5_vtable_slot_layout_witness :
    addedInt8OK (some 1) = true ∧ addedInt8OK (some 2) = true ∧
      (let buf := tflite.encodeFullyConnectedOptions (some 1) (some 2) (some true) (some true)
       let tpos := FB.readLE buf 0 4
       let vt : Int := (tpos : Int) - FB.readSOffset buf tpos
       FB.readVOffsetI buf vt = 4 + 2 * 4 ∧
       FB.readVOffsetI buf (vt + 2) = 8 ∧
       (FB.Table.Offset ⟨buf, tpos⟩ (4 + 2 * 0) =
           FB.readVOffsetI buf (vt + (4 + 2 * 0)) ∧
         FB.readVOffsetI buf (vt + (4 + 2 * 0)) ≠ 0) ∧
       (FB.Table.Offset ⟨buf, tpos⟩ (4 + 2 * 1) =
           FB.readVOffsetI buf (vt + (4 + 2 * 1)) ∧
         FB.readVOffsetI buf (vt + (4 + 2 * 1)) ≠ 0) ∧
       (FB.Table.Offset ⟨buf, tpos⟩ (4 + 2 * 2) =
           FB.readVOffsetI buf (vt + (4 + 2 * 2)) ∧
         FB.readVOffsetI buf (vt + (4 + 2 * 2)) ≠ 0) ∧
       (FB.Table.Offset ⟨buf, tpos⟩ (4 + 2 * 3) =
           FB.readVOffsetI buf (vt + (4 + 2 * 3)) ∧
         FB.readVOffsetI buf (vt + (4 + 2 * 3)) ≠ 0)) :=
  ⟨by decide, by decide, claim_C5_vtable_slot_layout.1 1 2 (by decide) (by decide)⟩

/-- Each loop iteration of the conversion appends exactly the claim's dataset
and attribute for the processed key (and nothing for an unrecognized key). -/
theorem js2h5Step_eq (hf : js2h5model.H5File) (kv : String × js2h5model.JsVal) :
    js2h5model.js2h5Step hf kv =
      ⟨hf.value ++ (js2h5model.claimDataset kv).toList,
       hf.name ++ (js2h5model.claimAttr kv).toList⟩ := by
  unfold js2h5model.js2h5Step js2h5model.claimDataset js2h5model.claimAttr
  by_cases h1 : kv.1 = "gazet_vecs" <;>
    by_cases h2 : kv.1 = "last_label_id" <;>
      by_cases h3 : kv.1 = "word_ids" <;>
        by_cases h4 : kv.1 = "reference_capsule_probs" <;>
          simp_all [js2h5model.h5dtype, js2h5model.h5dtypes, List.find?]

/-- Generalized loop invariant: folding the conversion step over the
remaining entries appends their datasets and attributes to the accumulator. -/
theorem js2h5_foldl_eq (data : List (String × js2h5model.JsVal)) :
    ∀ hf : js2h5model.H5File,
      data.foldl js2h5model.js2h5Step hf =
        ⟨hf.value ++ data.filterMap js2h5model.claimDataset,
         hf.name ++ data.filterMap js2h5model.claimAttr⟩ := by
  induction data with
  | nil => intro hf; simp
  | cons kv rest ih =>
    intro hf
    rw [List.foldl_cons, js2h5Step_eq, ih]
    by_cases h1 : kv.1 = "gazet_vecs" <;>
      by_cases h2 : kv.1 = "last_label_id" <;>
        by_cases h3 : kv.1 = "word_ids" <;>
          by_cases h4 : kv.1 = "reference_capsule_probs" <;>
            simp_all [js2h5model.claimDataset, js2h5model.claimAttr]

/-- An array forced to at least two dimensions indeed has at least two
dimensions. -/
theorem ndmin2_ndim (v : js2h5model.JsVal) : 2 ≤ (js2h5model.ndmin2 v).ndim := by
  unfold js2h5model.ndmin2
  split
  · assumption
  · split
    · simp only [js2h5model.JsVal.ndim]; omega
    · simp only [js2h5model.JsVal.ndim]; omega

/-- C10: for every input JSON object, the conversion writes, in order, a
dataset under group "value" and a matching attribute under group "name" for
exactly the keys it recognizes; it sends "word_ids" to dataset "0" as int32,
"last_label_id" to dataset "1" as int32, "gazet_vecs" to dataset "2" as
big-endian float32 (">f4"), "reference_capsule_probs" to dataset "expected"
as a float32 array of at least 2 dimensions, and every other key to no
dataset and no attribute; in particular the value stored for
"reference_capsule_probs" always has at least 2 dimensions. -/
theorem claim_C10_js2h5_key_routing :
    (∀ data : List (String × js2h5model.JsVal),
      js2h5model.js2h5 data =
        ⟨data.filterMap js2h5model.claimDataset,
         data.filterMap js2h5model.claimAttr⟩)
    ∧ (∀ v : js2h5model.JsVal, 2 ≤ (js2h5model.ndmin2 v).ndim) := by
  constructor
  · intro data
    unfold js2h5model.js2h5
    rw [js2h5_foldl_eq]
    simp
  · exact ndmin2_ndim
